import Mathlib

/-!
# Itinerary Allocation & Budget-Fitting Engine — verification development

A shallow embedding of the core planning components of the TravelAIAgent
repository: the itinerary planner (`agents/itinerary_planner_agent.py`) and
the budget optimizer (`agents/budget_optimizer_agent.py`), together with the
data model (`models/*.py`) and the city/airport lookup table
(`utils/airport_codes.py`).

Modelling conventions:
* Python `float` money values are embedded as rationals (`ℚ`); `round(x, 2)`
  is embedded as exact round-half-to-even at two decimals (`rnd2`).
* Python `dict` objects are embedded as insertion-ordered association lists
  (`dinsert` / `dlook`): inserting an existing key updates the value in
  place, a new key is appended at the end, exactly like a Python dict.
* Python exceptions (the reachable `ZeroDivisionError` in day allocation,
  and the `ValueError` on a missing start date) are embedded as `Option`.
* External collaborators (the attractions client and the travel-guide
  client) are passed in as explicit data, following the specified interface:
  a pool function `String → Nat → List AttractionRecord` and a per-city
  `TravelGuideInfo` lookup.
-/

namespace TravelAI

/-! ## Data model (`models/*.py`) -/

structure FlightOption where
  origin : String
  destination : String
  depart_date : String
  airline : String
  price : ℚ
  departure_time : String
  arrival_time : String
  booking_link : String
deriving Repr, DecidableEq

structure HotelOption where
  name : String
  location : String
  check_in : String
  check_out : String
  price : ℚ
  rating : ℚ
  reviews : Int
  link : String
deriving Repr, DecidableEq

structure TravelPreferences where
  origin_city : String
  destinations : List String
  num_days : Nat
  num_locations : Nat
  total_budget : ℚ
  start_date : Option Int := none
  end_date : Option Int := none
deriving Repr, DecidableEq

structure Activity where
  name : String
  description : String
  est_cost : ℚ := 0
  link : Option String := none
deriving Repr, DecidableEq

structure ItineraryDay where
  date : Int
  city : String
  activities : List Activity := []
  transport : Option String := none
deriving Repr, DecidableEq

structure Itinerary where
  origin : String
  destinations : List String
  days : List ItineraryDay
deriving Repr, DecidableEq

structure BudgetBreakdown where
  flights : ℚ := 0
  hotels : ℚ := 0
  activities : ℚ := 0
deriving Repr, DecidableEq

/-- `BudgetBreakdown.total`: recomputed sum of the three parts. -/
def BudgetBreakdown.total (b : BudgetBreakdown) : ℚ :=
  b.flights + b.hotels + b.activities

/-- Point-of-interest record as returned by the attractions / travel-guide
collaborators (a Python dict with name, link and optional description). -/
structure AttractionRecord where
  name : String
  link : String
  description : String := ""
deriving Repr, DecidableEq, Inhabited

/-- `clients/tripadvisor_client.py` `TravelGuideInfo`. -/
structure TravelGuideInfo where
  tips : List String
  transit_fare : Option ℚ
  attractions : List AttractionRecord := []
deriving Repr, DecidableEq

/-! ## Python-dict association lists -/

/-- Python dict lookup (`d.get(k)` / `k in d`). -/
def dlook {ν : Type} (k : String) : List (String × ν) → Option ν
  | [] => none
  | (k₁, v) :: rest => if k₁ = k then some v else dlook k rest

/-- Python dict assignment `d[k] = v`: update in place if the key exists,
append otherwise (insertion order preserved, like a Python dict). -/
def dinsert {ν : Type} (k : String) (v : ν) : List (String × ν) → List (String × ν)
  | [] => [(k, v)]
  | (k₁, v₁) :: rest => if k₁ = k then (k₁, v) :: rest else (k₁, v₁) :: dinsert k v rest

/-- Lookup for dicts keyed by a pair of strings (flight legs). -/
def dlook2 {ν : Type} (k : String × String) : List ((String × String) × ν) → Option ν
  | [] => none
  | (k₁, v) :: rest => if k₁ = k then some v else dlook2 k rest

/-- Insertion for dicts keyed by a pair of strings (flight legs). -/
def dinsert2 {ν : Type} (k : String × String) (v : ν) :
    List ((String × String) × ν) → List ((String × String) × ν)
  | [] => [(k, v)]
  | (k₁, v₁) :: rest => if k₁ = k then (k₁, v) :: rest else (k₁, v₁) :: dinsert2 k v rest

/-! ## City/airport lookup (`utils/airport_codes.py`) -/

/-- The `CITY_TO_AIRPORT` table. -/
def CITY_TO_AIRPORT : List (String × String) := [
  ("Baku", "GYD"),
  ("Istanbul", "IST"), ("Ankara", "ESB"), ("Izmir", "ADB"),
  ("Tbilisi", "TBS"),
  ("Dubai", "DXB"), ("Abu Dhabi", "AUH"),
  ("Amsterdam", "AMS"), ("Athens", "ATH"), ("Barcelona", "BCN"), ("Berlin", "BER"),
  ("Brussels", "BRU"), ("Budapest", "BUD"), ("Copenhagen", "CPH"), ("Dublin", "DUB"),
  ("Frankfurt", "FRA"), ("Helsinki", "HEL"), ("Lisbon", "LIS"), ("London", "LHR"),
  ("Madrid", "MAD"), ("Munich", "MUC"), ("Oslo", "OSL"), ("Paris", "CDG"),
  ("Prague", "PRG"), ("Rome", "FCO"), ("Stockholm", "ARN"), ("Vienna", "VIE"),
  ("Warsaw", "WAW"), ("Zurich", "ZRH"),
  ("Manchester", "MAN"),
  ("Doha", "DOH"), ("Jeddah", "JED"), ("Kuwait City", "KWI"), ("Muscat", "MCT"),
  ("Riyadh", "RUH"),
  ("Bangkok", "BKK"), ("Hong Kong", "HKG"), ("Jakarta", "CGK"), ("Kuala Lumpur", "KUL"),
  ("Manila", "MNL"), ("Mumbai", "BOM"), ("New Delhi", "DEL"), ("Seoul", "ICN"),
  ("Shanghai", "PVG"), ("Singapore", "SIN"), ("Taipei", "TPE"), ("Tokyo", "HND"),
  ("Atlanta", "ATL"), ("Boston", "BOS"), ("Chicago", "ORD"), ("Dallas", "DFW"),
  ("Denver", "DEN"), ("Houston", "IAH"), ("Los Angeles", "LAX"), ("New York", "JFK"),
  ("Miami", "MIA"), ("Montreal", "YUL"), ("San Francisco", "SFO"), ("Seattle", "SEA"),
  ("Toronto", "YYZ"), ("Vancouver", "YVR"), ("Washington D.C.", "IAD"),
  ("Buenos Aires", "EZE"), ("Mexico City", "MEX"), ("Rio de Janeiro", "GIG"),
  ("Sao Paulo", "GRU"),
  ("Cairo", "CAI"), ("Cape Town", "CPT"), ("Johannesburg", "JNB"), ("Lagos", "LOS"),
  ("Nairobi", "NBO"),
  ("Auckland", "AKL"), ("Melbourne", "MEL"), ("Sydney", "SYD")]

/-- The inverted mapping `{v: k for k, v in CITY_TO_AIRPORT.items()}` built in
both agents' constructors.  (All airport codes in the table are distinct, so
first-match lookup agrees with the Python dict comprehension.) -/
def airportToCity : List (String × String) :=
  CITY_TO_AIRPORT.map (fun p => (p.2, p.1))

/-- `_label_city` (identical in both agents): map an airport code back to its
city name, otherwise return the value unchanged. -/
def labelCity (value : String) : String :=
  match dlook value airportToCity with
  | some city => city
  | none => value

/-! ## Rounding (`round(x, 2)` on money values) -/

/-- Round-half-to-even to an integer, the rounding used by Python's builtin
`round`. -/
def roundHalfEven (q : ℚ) : ℤ :=
  if q - ⌊q⌋ < 1/2 then ⌊q⌋
  else if 1/2 < q - ⌊q⌋ then ⌊q⌋ + 1
  else if ⌊q⌋ % 2 = 0 then ⌊q⌋ else ⌊q⌋ + 1

/-- `round(x, 2)`: round to two decimal places, half to even. -/
def rnd2 (q : ℚ) : ℚ :=
  (roundHalfEven (q * 100) : ℚ) / 100

theorem roundHalfEven_le (q : ℚ) : (roundHalfEven q : ℚ) ≤ q + 1/2 := by
  unfold roundHalfEven
  have hf : (⌊q⌋ : ℚ) ≤ q := Int.floor_le q
  split
  · linarith
  · split
    · have h2 : q - ⌊q⌋ < 1 := by
        have := Int.sub_one_lt_floor q
        linarith
      push_cast
      linarith
  -- exact-half case: result is ⌊q⌋ or ⌊q⌋ + 1, and q - ⌊q⌋ = 1/2
    · split
      · linarith
      · have h3 : q - (⌊q⌋ : ℚ) = 1/2 := by
          rename_i h1 h2 _
          have := le_antisymm (not_lt.mp h2) (not_lt.mp h1)
          linarith
        push_cast
        linarith

theorem le_roundHalfEven (q : ℚ) : q - 1/2 ≤ (roundHalfEven q : ℚ) := by
  unfold roundHalfEven
  have hf : (⌊q⌋ : ℚ) ≤ q := Int.floor_le q
  have hf2 : q - 1 < (⌊q⌋ : ℚ) := by
    have := Int.sub_one_lt_floor q
    linarith
  split
  · rename_i h1
    linarith
  · split
    · push_cast; linarith
    · split
      · rename_i h1 h2 _
        have h3 : q - (⌊q⌋ : ℚ) = 1/2 := le_antisymm (not_lt.mp h2) (not_lt.mp h1)
        linarith
      · push_cast; linarith

theorem roundHalfEven_nonneg (q : ℚ) (hq : 0 ≤ q) : 0 ≤ roundHalfEven q := by
  unfold roundHalfEven
  have hf : (0 : ℤ) ≤ ⌊q⌋ := Int.floor_nonneg.mpr hq
  split
  · omega
  · split
    · omega
    · split <;> omega

theorem rnd2_le (q : ℚ) : rnd2 q ≤ q + 1/200 := by
  unfold rnd2
  have h := roundHalfEven_le (q * 100)
  rw [div_le_iff₀ (by norm_num : (0:ℚ) < 100)]
  linarith

theorem le_rnd2 (q : ℚ) : q - 1/200 ≤ rnd2 q := by
  unfold rnd2
  have h := le_roundHalfEven (q * 100)
  rw [le_div_iff₀ (by norm_num : (0:ℚ) < 100)]
  linarith

theorem rnd2_nonneg (q : ℚ) (hq : 0 ≤ q) : 0 ≤ rnd2 q := by
  unfold rnd2
  have h := roundHalfEven_nonneg (q * 100) (by positivity)
  positivity

/-! ## Departure-time parsing (`BudgetOptimizerAgent._parse_departure_time`)

`datetime.strptime` is tried on the formats `%Y-%m-%d %H:%M`, `%Y-%m-%dT%H:%M`,
`%H:%M`, `%I:%M %p` in order; the first that fully matches (and produces a
valid calendar date) wins.  The token parsers below mirror CPython's
`_strptime` regular expressions (ordered alternations, case-insensitive
literals, `\s+` for format whitespace); calendar validation mirrors the
`datetime` constructor. -/

structure DT where
  year : Nat
  month : Nat
  day : Nat
  hour : Nat
  minute : Nat
  second : Nat := 0
deriving Repr, DecidableEq

/-- `datetime.max` (seconds field 59 distinguishes it from any parsed value,
which always has seconds 0). -/
def DT.maxDT : DT := ⟨9999, 12, 31, 23, 59, 59⟩

def digitVal (c : Char) : Nat := c.toNat - 48

/-- `%Y`: exactly four digits. -/
def pYear4 : List Char → Option (Nat × List Char)
  | a :: b :: c :: d :: rest =>
      if a.isDigit ∧ b.isDigit ∧ c.isDigit ∧ d.isDigit then
        some (1000 * digitVal a + 100 * digitVal b + 10 * digitVal c + digitVal d, rest)
      else none
  | _ => none

/-- `%m` and `%I`: regex `1[0-2]|0[1-9]|[1-9]`. -/
def pMonth12 : List Char → Option (Nat × List Char)
  | [] => none
  | c₁ :: rest₁ =>
      match rest₁ with
      | c₂ :: rest₂ =>
          if c₁ = '1' ∧ '0' ≤ c₂ ∧ c₂ ≤ '2' then some (10 + digitVal c₂, rest₂)
          else if c₁ = '0' ∧ '1' ≤ c₂ ∧ c₂ ≤ '9' then some (digitVal c₂, rest₂)
          else if '1' ≤ c₁ ∧ c₁ ≤ '9' then some (digitVal c₁, rest₁)
          else none
      | [] => if '1' ≤ c₁ ∧ c₁ ≤ '9' then some (digitVal c₁, []) else none

/-- `%d`: regex `3[01]|[12]\d|0[1-9]|[1-9]`. -/
def pDay31 : List Char → Option (Nat × List Char)
  | [] => none
  | c₁ :: rest₁ =>
      match rest₁ with
      | c₂ :: rest₂ =>
          if c₁ = '3' ∧ '0' ≤ c₂ ∧ c₂ ≤ '1' then some (30 + digitVal c₂, rest₂)
          else if ('1' ≤ c₁ ∧ c₁ ≤ '2') ∧ c₂.isDigit then some (10 * digitVal c₁ + digitVal c₂, rest₂)
          else if c₁ = '0' ∧ '1' ≤ c₂ ∧ c₂ ≤ '9' then some (digitVal c₂, rest₂)
          else if '1' ≤ c₁ ∧ c₁ ≤ '9' then some (digitVal c₁, rest₁)
          else none
      | [] => if '1' ≤ c₁ ∧ c₁ ≤ '9' then some (digitVal c₁, []) else none

/-- `%H`: regex `2[0-3]|[0-1]\d|\d`. -/
def pHour24 : List Char → Option (Nat × List Char)
  | [] => none
  | c₁ :: rest₁ =>
      match rest₁ with
      | c₂ :: rest₂ =>
          if c₁ = '2' ∧ '0' ≤ c₂ ∧ c₂ ≤ '3' then some (20 + digitVal c₂, rest₂)
          else if ('0' ≤ c₁ ∧ c₁ ≤ '1') ∧ c₂.isDigit then some (10 * digitVal c₁ + digitVal c₂, rest₂)
          else if c₁.isDigit then some (digitVal c₁, rest₁)
          else none
      | [] => if c₁.isDigit then some (digitVal c₁, []) else none

/-- `%M`: regex `[0-5]\d|\d`. -/
def pMin60 : List Char → Option (Nat × List Char)
  | [] => none
  | c₁ :: rest₁ =>
      match rest₁ with
      | c₂ :: rest₂ =>
          if ('0' ≤ c₁ ∧ c₁ ≤ '5') ∧ c₂.isDigit then some (10 * digitVal c₁ + digitVal c₂, rest₂)
          else if c₁.isDigit then some (digitVal c₁, rest₁)
          else none
      | [] => if c₁.isDigit then some (digitVal c₁, []) else none

/-- Literal character; `strptime` compiles with IGNORECASE. -/
def pLit (c : Char) : List Char → Option (List Char)
  | c₁ :: rest => if c₁.toLower = c.toLower then some rest else none
  | [] => none

/-- Format whitespace: `\s+`. -/
def pWs : List Char → Option (List Char)
  | c :: rest => if c.isWhitespace then some (rest.dropWhile Char.isWhitespace) else none
  | [] => none

/-- `%p`: `am|pm`, case-insensitive; returns `true` for PM. -/
def pAmPm : List Char → Option (Bool × List Char)
  | c₁ :: c₂ :: rest =>
      if c₂.toLower = 'm' then
        if c₁.toLower = 'a' then some (false, rest)
        else if c₁.toLower = 'p' then some (true, rest)
        else none
      else none
  | _ => none

def daysInMonth (y m : Nat) : Nat :=
  if m = 2 then (if y % 4 = 0 ∧ (y % 100 ≠ 0 ∨ y % 400 = 0) then 29 else 28)
  else if m = 4 ∨ m = 6 ∨ m = 9 ∨ m = 11 then 30 else 31

/-- The `datetime(...)` constructor validation (`MINYEAR = 1`). -/
def mkDT (y m d h mi : Nat) : Option DT :=
  if 1 ≤ y ∧ y ≤ 9999 ∧ 1 ≤ m ∧ m ≤ 12 ∧ 1 ≤ d ∧ d ≤ daysInMonth y m ∧ h ≤ 23 ∧ mi ≤ 59 then
    some ⟨y, m, d, h, mi, 0⟩
  else none

/-- `dt.replace(year=2100)` applied when the parsed year is 1900 (the
strptime default used by the time-only formats). -/
def fixYear1900 (dt : DT) : DT :=
  if dt.year = 1900 then { dt with year := 2100 } else dt

def pFmtYmdHM (cs : List Char) : Option DT := do
  let (y, cs) ← pYear4 cs
  let cs ← pLit '-' cs
  let (m, cs) ← pMonth12 cs
  let cs ← pLit '-' cs
  let (d, cs) ← pDay31 cs
  let cs ← pWs cs
  let (h, cs) ← pHour24 cs
  let cs ← pLit ':' cs
  let (mi, cs) ← pMin60 cs
  if cs.isEmpty then (mkDT y m d h mi).map fixYear1900 else none

def pFmtYmdTHM (cs : List Char) : Option DT := do
  let (y, cs) ← pYear4 cs
  let cs ← pLit '-' cs
  let (m, cs) ← pMonth12 cs
  let cs ← pLit '-' cs
  let (d, cs) ← pDay31 cs
  let cs ← pLit 'T' cs
  let (h, cs) ← pHour24 cs
  let cs ← pLit ':' cs
  let (mi, cs) ← pMin60 cs
  if cs.isEmpty then (mkDT y m d h mi).map fixYear1900 else none

def pFmtHM (cs : List Char) : Option DT := do
  let (h, cs) ← pHour24 cs
  let cs ← pLit ':' cs
  let (mi, cs) ← pMin60 cs
  if cs.isEmpty then (mkDT 1900 1 1 h mi).map fixYear1900 else none

def pFmtIMp (cs : List Char) : Option DT := do
  let (h12, cs) ← pMonth12 cs
  let cs ← pLit ':' cs
  let (mi, cs) ← pMin60 cs
  let cs ← pWs cs
  let (pm, cs) ← pAmPm cs
  let h := if pm then (if h12 ≠ 12 then h12 + 12 else 12) else (if h12 = 12 then 0 else h12)
  if cs.isEmpty then (mkDT 1900 1 1 h mi).map fixYear1900 else none

/-- `_parse_departure_time`: strip, then try the four formats in order. -/
def parseDepartureTime (value : String) : Option DT :=
  if value = "" then none
  else
    let v := value.trim.data
    match pFmtYmdHM v with
    | some dt => some dt
    | none =>
      match pFmtYmdTHM v with
      | some dt => some dt
      | none =>
        match pFmtHM v with
        | some dt => some dt
        | none => pFmtIMp v

/-! ## Flight sort key (`BudgetOptimizerAgent._flight_sort_key`) -/

/-- Lexicographic key of a `datetime` value: field-by-field comparison. -/
abbrev DTKey := ℕ ×ₗ ℕ ×ₗ ℕ ×ₗ ℕ ×ₗ ℕ ×ₗ ℕ

def DT.key (d : DT) : DTKey :=
  toLex (d.year, toLex (d.month, toLex (d.day, toLex (d.hour, toLex (d.minute, d.second)))))

/-- The composite key `(flight.price, dep or datetime.max, str(departure_time))`,
compared exactly as Python compares the tuple (lexicographically). -/
abbrev FKey := ℚ ×ₗ DTKey ×ₗ String

def flightSortKey (f : FlightOption) : FKey :=
  toLex (f.price, toLex (((parseDepartureTime f.departure_time).getD DT.maxDT).key, f.departure_time))

/-- `≤` on sort keys, used by the stable sort (Python's `sorted` is a stable
sort placing `a` before `b` iff not `key b < key a`). -/
def fle (a b : FlightOption) : Prop := flightSortKey a ≤ flightSortKey b

instance : DecidableRel fle := fun a b =>
  inferInstanceAs (Decidable (flightSortKey a ≤ flightSortKey b))

/-- `sorted(flights, key=self._flight_sort_key)`: a stable sort by the
composite key; insertion sort w.r.t. the total preorder `fle` yields the
same (unique) stable result. -/
def sortFlights (flights : List FlightOption) : List FlightOption :=
  flights.insertionSort fle

/-! ## Itinerary planner (`agents/itinerary_planner_agent.py`) -/

/-- Loop body shared by both collection loops of `_build_city_route`: skip the
origin label and any city already collected (first occurrence wins). -/
def routeStep (origin_label : String) (route : List String) (city : String) : List String :=
  if city = origin_label then route
  else if city ∈ route then route
  else route ++ [city]

/-- Stable sort of the flights by departure date (the Python key
`x.depart_date or ""` is the date string itself, `""` being falsy only for
`""`).  Python's `sorted` is a stable sort; a stable sort w.r.t. a total
preorder has a unique result, so insertion sort produces the same list. -/
def sortByDepartDate (flights : List FlightOption) : List FlightOption :=
  flights.insertionSort (fun a b => a.depart_date ≤ b.depart_date)

/-- `ItineraryPlannerAgent._build_city_route`: walk the flights sorted by
departure date, collecting destination labels; then walk the declared
destinations; fall back to the filtered declared list if nothing was
collected. -/
def buildCityRoute (prefs : TravelPreferences) (flights : List FlightOption) : List String :=
  let origin_label := labelCity prefs.origin_city
  let sortedFlights := sortByDepartDate flights
  let route₁ := sortedFlights.foldl (fun r f => routeStep origin_label r (labelCity f.destination)) []
  let route₂ := prefs.destinations.foldl (fun r d => routeStep origin_label r (labelCity d)) route₁
  let filtered := route₂.filter (fun c => c ≠ origin_label)
  if filtered.isEmpty then
    (prefs.destinations.map labelCity).filter (fun c => c ≠ origin_label)
  else filtered

/-- `ItineraryPlannerAgent._allocate_days`.  `total_days` is clamped to ≥ 1,
but the divisor `len(cities)` is not: with an empty city list the Python code
raises `ZeroDivisionError`, embedded here as `none`. -/
def allocateDays (total_days : Nat) (cities : List String) : Option (List (String × Nat)) :=
  let td := max 1 total_days
  if cities.length = 0 then none
  else
    let base := td / cities.length
    let remainder := td % cities.length
    some (cities.enum.foldl
      (fun alloc p => dinsert p.2 (base + if p.1 < remainder then 1 else 0) alloc) [])

/-- Minimum of a list of rationals (`min(prices)`); `none` on an empty list. -/
def qListMin : List ℚ → Option ℚ
  | [] => none
  | p :: rest =>
      match qListMin rest with
      | none => some p
      | some m => some (min p m)

/-- `ItineraryPlannerAgent._cheapest_hotel_price`. -/
def cheapestHotelPrice (city : String) (hotels : List HotelOption) : ℚ :=
  let city_label := labelCity city
  (qListMin ((hotels.filter (fun h => labelCity h.location = city_label)).map (·.price))).getD 0

/-- `ItineraryPlannerAgent._estimate_activity_budget`. -/
def estimateActivityBudget (prefs : TravelPreferences) (flights : List FlightOption)
    (hotels : List HotelOption) (days_per_city : List (String × Nat)) : ℚ :=
  let cheapest_flight := (qListMin (flights.map (·.price))).getD 0
  let hotel_floor := days_per_city.foldl
    (fun acc p => acc + cheapestHotelPrice p.1 hotels * ((max 1 p.2 : Nat) : ℚ)) 0
  let remaining := prefs.total_budget - cheapest_flight - hotel_floor
  if remaining ≤ 0 then 0
  else
    let total_days := match (days_per_city.map (·.2)).sum with
      | 0 => 1
      | n => n
    remaining / (total_days : ℚ)

/-- First element minimising the price (`min(hotels, key=lambda h: h.price)`
returns the first minimum). -/
def minByPrice : List HotelOption → Option HotelOption
  | [] => none
  | h :: rest => some (rest.foldl (fun acc x => if x.price < acc.price then x else acc) h)

/-- `ItineraryPlannerAgent._choose_hotel_name`. -/
def chooseHotelName (city : String) (hotels : List HotelOption) : String :=
  let city_label := labelCity city
  match minByPrice (hotels.filter (fun h => labelCity h.location = city_label)) with
  | none => ""
  | some h => h.name

/-- `ItineraryPlannerAgent._find_leg`: first flight whose normalized labels
match. -/
def findLeg (origin destination : String) (flights : List FlightOption) : Option FlightOption :=
  flights.find? (fun f =>
    labelCity f.destination = labelCity destination ∧ labelCity f.origin = labelCity origin)

/-- `ItineraryPlannerAgent._local_transport_cost`. -/
def localTransportCost (budget_per_day : ℚ) (guide : Option TravelGuideInfo) : ℚ :=
  match guide with
  | none => 0
  | some g =>
      match g.transit_fare with
      | none => 0
      | some fare => if budget_per_day ≤ 0 then 0 else min (rnd2 fare) budget_per_day

/-- `_ground_transfer_cost`: always 0 (no live pricing is fabricated). -/
def groundTransferCost (_budget_per_day : ℚ) : ℚ := 0

/-- `_intercity_transport_cost`: always 0 (no live pricing is fabricated). -/
def intercityTransportCost (_budget_per_day : ℚ) : ℚ := 0

/-- The four fixed time slots with their envelope shares. -/
def slotTable : List (String × ℚ) :=
  [("Morning", 32/100), ("Afternoon", 28/100), ("Evening", 22/100), ("Late", 18/100)]

/-- The attraction pool of `_activities_for_city` (lines 193–201): the
travel-guide attractions truncated to the pool size, falling back to the
attractions client (`attractionsOf : city label → limit → records`). -/
def attractionPool (attractionsOf : String → Nat → List AttractionRecord)
    (city : String) (days_in_city : Nat) (travel_guide : Option TravelGuideInfo) :
    List AttractionRecord :=
  let city_label := labelCity city
  let pool_size := min 30 (max 6 (days_in_city * 3))
  let fromGuide :=
    match travel_guide with
    | some g => g.attractions.take pool_size
    | none => []
  if fromGuide.isEmpty then attractionsOf city_label pool_size else fromGuide

/-- One slot entry of `_activities_for_city` (lines 225–238). -/
def slotActivity (slot_label : String) (share : ℚ) (budget_per_day : ℚ)
    (item : AttractionRecord) : Activity :=
  { name := slot_label ++ ": " ++ item.name
    description := item.description
    est_cost := rnd2 (max 0 (budget_per_day * share))
    link := if item.link = "" then none else some item.link }

/-- `ItineraryPlannerAgent._activities_for_city`. -/
def activitiesForCity (attractionsOf : String → Nat → List AttractionRecord)
    (city : String) (budget_per_day : ℚ) (day_offset : Nat) (days_in_city : Nat)
    (travel_guide : Option TravelGuideInfo) : List Activity :=
  let attractions := attractionPool attractionsOf city days_in_city travel_guide
  if attractions.isEmpty then []
  else
    let n := attractions.length
    let start := (day_offset * 3) % n
    let selected := (List.range 3).map (fun i => attractions.getD ((start + i) % n) default)
    let slots := slotTable.take selected.length
    let transport_cost := localTransportCost budget_per_day travel_guide
    let transportActs : List Activity :=
      if 0 < transport_cost then
        [{ name := "Getting around", description := "Metro/tram/bus (typical single ride)",
           est_cost := transport_cost }]
      else []
    let slotActs := slots.enum.map (fun p =>
      slotActivity p.2.1 p.2.2 budget_per_day (selected.getD (p.1 % selected.length) default))
    transportActs ++ slotActs

/-- Zero out the cost of the last activity (`activities[-1].est_cost = 0.0`). -/
def zeroLast : List Activity → List Activity
  | [] => []
  | [a] => [{ a with est_cost := 0 }]
  | a :: b :: rest => a :: zeroLast (b :: rest)

/-- `ItineraryPlannerAgent._fit_to_budget`. -/
def fitToBudget (activities : List Activity) (budget_per_day : ℚ) : List Activity :=
  let paid := activities.filter (fun a => 0 < a.est_cost)
  let total := (paid.map (·.est_cost)).sum
  if total ≤ max budget_per_day 0 then activities
  else if total = 0 then activities
  else
    let scale := if total ≠ 0 then budget_per_day / total else 1
    let scaled := activities.map (fun a =>
      if 0 < a.est_cost then { a with est_cost := rnd2 (a.est_cost * scale) } else a)
    if budget_per_day < 5 ∧ ¬activities.isEmpty then zeroLast scaled else scaled

/-- Check-in activity emitted on the first day in a city with hotel data. -/
def checkinActivity (hotel_name : String) : Activity :=
  { name := "Hotel check-in", description := "Check in at " ++ hotel_name, est_cost := 0 }

/-- The first-day transport entry: a matching discovered flight yields the
flight transport line and a zero-cost ground transfer; otherwise the generic
intercity placeholder. -/
def firstDayTransport (flights : List FlightOption) (budget : ℚ) (prev city : String) :
    Option String × List Activity :=
  match findLeg prev city flights with
  | some leg =>
      (some (labelCity leg.origin ++ " → " ++ labelCity leg.destination ++ " with " ++
             leg.airline ++ " (" ++ leg.departure_time ++ "–" ++ leg.arrival_time ++ ")"),
       [{ name := "Airport/ground transfer",
          description := "Local bus/metro/taxi from airport to hotel (price varies)",
          est_cost := groundTransferCost budget }])
  | none =>
      (some ("Travel to " ++ labelCity city ++ " (train/bus recommended)"),
       [{ name := "Intercity transport",
          description := "Train/bus transfer to " ++ labelCity city ++ " (price varies)",
          est_cost := intercityTransportCost budget }])

/-- One day of the assembly loop body in `ItineraryPlannerAgent.run`. -/
def mkDay (attractionsOf : String → Nat → List AttractionRecord)
    (flights : List FlightOption) (hotels : List HotelOption)
    (guides : List (String × TravelGuideInfo)) (budget : ℚ)
    (prev city : String) (day_idx days_in_city : Nat) (date : Int) : ItineraryDay :=
  let ta : Option String × List Activity :=
    if day_idx = 0 then
      let fd := firstDayTransport flights budget prev city
      let hotel_name := chooseHotelName city hotels
      (fd.1, fd.2 ++ (if hotel_name = "" then [] else [checkinActivity hotel_name]))
    else (none, [])
  let acts₁ := ta.2 ++ activitiesForCity attractionsOf city budget day_idx days_in_city
    (dlook city guides)
  { date := date, city := labelCity city, activities := fitToBudget acts₁ budget,
    transport := ta.1 }

/-- The nested assembly loop of `ItineraryPlannerAgent.run`: for each city in
route order, one day per allocated day; `prev` is updated to the city after
its block (even when the block is empty). -/
def assembleDays (attractionsOf : String → Nat → List AttractionRecord)
    (flights : List FlightOption) (hotels : List HotelOption)
    (guides : List (String × TravelGuideInfo)) (alloc : List (String × Nat)) (budget : ℚ) :
    List String → Int → String → List ItineraryDay
  | [], _, _ => []
  | city :: rest, date, prev =>
      -- `days_per_city[city]` always succeeds in `run` (the route is the key set).
      let n := (dlook city alloc).getD 0
      ((List.range n).map (fun i =>
        mkDay attractionsOf flights hotels guides budget prev city i n (date + i))) ++
      assembleDays attractionsOf flights hotels guides alloc budget rest (date + n) city

/-- `ItineraryPlannerAgent.run`.  `none` models the `ValueError` on a missing
start date and the `ZeroDivisionError` of `_allocate_days` on an empty
realized route. -/
def plannerRun (attractionsOf : String → Nat → List AttractionRecord)
    (prefs : TravelPreferences) (flights : List FlightOption) (hotels : List HotelOption)
    (guides : List (String × TravelGuideInfo)) : Option Itinerary :=
  match prefs.start_date with
  | none => none
  | some d₀ =>
    let ordered_cities := buildCityRoute prefs flights
    match allocateDays prefs.num_days ordered_cities with
    | none => none
    | some alloc =>
      let budget := estimateActivityBudget prefs flights hotels alloc
      some { origin := labelCity prefs.origin_city
             destinations := ordered_cities.map labelCity
             days := assembleDays attractionsOf flights hotels guides alloc budget
               ordered_cities d₀ prefs.origin_city }

/-! ## Budget optimizer (`agents/budget_optimizer_agent.py`) -/

/-- `BudgetOptimizerAgent._nights_per_city`: count days per city label. -/
def nightsPerCity (itinerary : Itinerary) : List (String × Nat) :=
  itinerary.days.foldl
    (fun nights day => dinsert day.city ((dlook day.city nights).getD 0 + 1) nights) []

/-- The required leg sequence `origin→city₁→…→cityₙ→origin` built from the
realized destinations. -/
def legOrder (current : String) (dests : List String) (origin_label : String) :
    List (String × String) :=
  match dests with
  | [] => [(current, origin_label)]
  | d :: rest => (current, d) :: legOrder d rest origin_label

/-- Normalized (origin, destination) labels of a flight. -/
def legOf (f : FlightOption) : String × String :=
  (labelCity f.origin, labelCity f.destination)

/-- Loop body of the `flights_by_leg` construction: keep the entry with the
strictly smaller sort key. -/
def flightsByLegStep (d : List ((String × String) × FlightOption)) (f : FlightOption) :
    List ((String × String) × FlightOption) :=
  match dlook2 (legOf f) d with
  | none => dinsert2 (legOf f) f d
  | some existing =>
      if flightSortKey f < flightSortKey existing then dinsert2 (legOf f) f d else d

def flightsByLeg (flights_sorted : List FlightOption) :
    List ((String × String) × FlightOption) :=
  flights_sorted.foldl flightsByLegStep []

/-- Flight selection in `BudgetOptimizerAgent.run`: per-leg cheapest for
multi-city trips, the 45%-of-budget heuristic for single-destination trips. -/
def selectFlights (prefs : TravelPreferences) (flights : List FlightOption)
    (itinerary : Itinerary) : List FlightOption :=
  let flights_sorted := sortFlights flights
  if 1 < prefs.destinations.length then
    let origin_label := labelCity prefs.origin_city
    let legs := legOrder origin_label itinerary.destinations origin_label
    let dict := flightsByLeg flights_sorted
    legs.filterMap (fun leg => dlook2 leg dict)
  else
    let flight_budget := prefs.total_budget * (45/100)
    match flights_sorted.find? (fun f => f.price ≤ flight_budget) with
    | some f => [f]
    | none => flights_sorted.take 1

/-- Per-city hotel budget shares (`hotel_budget_per_city`). -/
def hotelBudgetPerCity (prefs : TravelPreferences) (nights_per_city : List (String × Nat))
    (total_nights : Nat) (hotel_budget : ℚ) : List (String × ℚ) :=
  if nights_per_city.isEmpty then
    let per_city := hotel_budget / ((max 1 prefs.destinations.length : Nat) : ℚ)
    prefs.destinations.foldl (fun d city => dinsert (labelCity city) per_city d) []
  else
    nights_per_city.foldl
      (fun d p => dinsert p.1 (hotel_budget * ((p.2 : ℚ) / (total_nights : ℚ))) d) []

/-- Hotel selection loop: cheapest in-budget hotel per city, falling back to
the cheapest hotel regardless of budget; cities with no hotels are absent. -/
def chosenHotelsOf (prefs : TravelPreferences) (hotels : List HotelOption)
    (nights_per_city : List (String × Nat)) (budget_per_city : List (String × ℚ))
    (hotel_budget : ℚ) : List (String × HotelOption) :=
  prefs.destinations.foldl (fun chosen city =>
    let city_label := labelCity city
    let candidates := hotels.filter (fun h =>
      labelCity h.location = city_label ∧
      h.price * ((max 1 ((dlook city_label nights_per_city).getD 0) : Nat) : ℚ) ≤
        (dlook city_label budget_per_city).getD hotel_budget)
    match minByPrice candidates with
    | some h => dinsert city_label h chosen
    | none =>
        match minByPrice (hotels.filter (fun h => labelCity h.location = city_label)) with
        | some h => dinsert city_label h chosen
        | none => chosen) []

/-- `hotel_cost`: nightly price times clamped nights, summed over the chosen
hotels. -/
def hotelCostOf (chosen : List (String × HotelOption)) (nights_per_city : List (String × Nat)) : ℚ :=
  chosen.foldl
    (fun acc p => acc + p.2.price * ((max 1 ((dlook p.1 nights_per_city).getD 0) : Nat) : ℚ)) 0

/-- Total activity spend over the whole itinerary. -/
def activitiesCostOf (itinerary : Itinerary) : ℚ :=
  (itinerary.days.map (fun day => (day.activities.map (·.est_cost)).sum)).sum

/-- `BudgetOptimizerAgent._scale_activity_costs`: multiply every activity cost
across every day by `scale`, rounding to 2 decimals. -/
def scaleActivityCosts (itinerary : Itinerary) (scale : ℚ) : Itinerary :=
  { itinerary with days := itinerary.days.map (fun day =>
      { day with activities := day.activities.map (fun a =>
          { a with est_cost := rnd2 (a.est_cost * scale) }) }) }

/-- `BudgetOptimizerAgent.run`.  Returns the chosen flights, chosen hotels,
budget breakdown, and the (possibly rescaled) itinerary — the Python code
mutates the itinerary in place. -/
def optimizerRun (prefs : TravelPreferences) (flights : List FlightOption)
    (hotels : List HotelOption) (itinerary : Itinerary) :
    List FlightOption × List (String × HotelOption) × BudgetBreakdown × Itinerary :=
  let nights_per_city := nightsPerCity itinerary
  let total_nights :=
    match (nights_per_city.map (·.2)).sum with
    | 0 => max 1 prefs.num_days
    | n => n
  let chosen_flights := selectFlights prefs flights itinerary
  let flight_cost := (chosen_flights.map (·.price)).sum
  let hotel_budget := max 0 (prefs.total_budget - flight_cost)
  let budget_per_city := hotelBudgetPerCity prefs nights_per_city total_nights hotel_budget
  let chosen_hotels := chosenHotelsOf prefs hotels nights_per_city budget_per_city hotel_budget
  let hotel_cost := hotelCostOf chosen_hotels nights_per_city
  let activities_cost := activitiesCostOf itinerary
  let total_spend := flight_cost + hotel_cost + activities_cost
  if prefs.total_budget < total_spend ∧ 0 < activities_cost then
    let allowed_for_activities := max 0 (prefs.total_budget - flight_cost - hotel_cost)
    let scale := max 0 (min 1 (allowed_for_activities / activities_cost))
    if scale < 1 then
      let itinerary₂ := scaleActivityCosts itinerary scale
      (chosen_flights, chosen_hotels,
       { flights := flight_cost, hotels := hotel_cost, activities := activitiesCostOf itinerary₂ },
       itinerary₂)
    else
      (chosen_flights, chosen_hotels,
       { flights := flight_cost, hotels := hotel_cost, activities := activities_cost }, itinerary)
  else
    (chosen_flights, chosen_hotels,
     { flights := flight_cost, hotels := hotel_cost, activities := activities_cost }, itinerary)

/-! ## Association-list lemmas -/

theorem dlook_dinsert_self {ν : Type} (k : String) (v : ν) (d : List (String × ν)) :
    dlook k (dinsert k v d) = some v := by
  induction d with
  | nil => simp [dinsert, dlook]
  | cons p rest ih =>
      obtain ⟨k₁, v₁⟩ := p
      by_cases h : k₁ = k
      · simp [dinsert, dlook, h]
      · simp [dinsert, dlook, h, ih]

theorem dlook_dinsert_ne {ν : Type} (k k₁ : String) (v : ν) (d : List (String × ν))
    (h : k₁ ≠ k) : dlook k (dinsert k₁ v d) = dlook k d := by
  induction d with
  | nil => simp [dinsert, dlook, h]
  | cons p rest ih =>
      obtain ⟨k₂, v₂⟩ := p
      by_cases h₂ : k₂ = k₁
      · subst h₂; simp [dinsert, dlook, h]
      · by_cases h₃ : k₂ = k
        · simp [dinsert, dlook, h₂, h₃, Ne.symm h]
        · simp [dinsert, dlook, h₂, h₃, ih]

theorem dinsert_eq_append {ν : Type} (k : String) (v : ν) (d : List (String × ν))
    (h : dlook k d = none) : dinsert k v d = d ++ [(k, v)] := by
  induction d with
  | nil => simp [dinsert]
  | cons p rest ih =>
      obtain ⟨k₁, v₁⟩ := p
      by_cases h₁ : k₁ = k
      · simp [dlook, h₁] at h
      · simp [dlook, h₁] at h
        simp [dinsert, h₁, ih h]

theorem dlook_append {ν : Type} (k : String) (d₁ d₂ : List (String × ν)) :
    dlook k (d₁ ++ d₂) =
      match dlook k d₁ with
      | some v => some v
      | none => dlook k d₂ := by
  induction d₁ with
  | nil => simp [dlook]
  | cons p rest ih =>
      obtain ⟨k₁, v₁⟩ := p
      by_cases h : k₁ = k
      · simp [dlook, h]
      · simp [dlook, h, ih]

theorem dlook2_dinsert2_self {ν : Type} (k : String × String) (v : ν)
    (d : List ((String × String) × ν)) : dlook2 k (dinsert2 k v d) = some v := by
  induction d with
  | nil => simp [dinsert2, dlook2]
  | cons p rest ih =>
      obtain ⟨k₁, v₁⟩ := p
      by_cases h : k₁ = k
      · simp [dinsert2, dlook2, h]
      · simp [dinsert2, dlook2, h, ih]

theorem dlook2_dinsert2_ne {ν : Type} (k k₁ : String × String) (v : ν)
    (d : List ((String × String) × ν)) (h : k₁ ≠ k) :
    dlook2 k (dinsert2 k₁ v d) = dlook2 k d := by
  induction d with
  | nil => simp [dinsert2, dlook2, h]
  | cons p rest ih =>
      obtain ⟨k₂, v₂⟩ := p
      by_cases h₂ : k₂ = k₁
      · subst h₂; simp [dinsert2, dlook2, h]
      · by_cases h₃ : k₂ = k
        · simp [dinsert2, dlook2, h₂, h₃, Ne.symm h]
        · simp [dinsert2, dlook2, h₂, h₃, ih]

/-! ## Day allocation: characterization (claim C2) -/

theorem foldl_dinsert_enumFrom {ν : Type} (f : Nat × String → ν) :
    ∀ (cities : List String) (n : Nat) (acc : List (String × ν)),
      (∀ c ∈ cities, dlook c acc = none) → cities.Nodup →
      (cities.enumFrom n).foldl (fun d p => dinsert p.2 (f p) d) acc =
        acc ++ (cities.enumFrom n).map (fun p => (p.2, f p))
  | [], n, acc, _, _ => by simp [List.enumFrom]
  | c :: cs, n, acc, hacc, hnd => by
      have hc : dlook c acc = none := hacc c (by simp)
      have hnotin : c ∉ cs := (List.nodup_cons.mp hnd).1
      have step : dinsert c (f (n, c)) acc = acc ++ [(c, f (n, c))] :=
        dinsert_eq_append _ _ _ hc
      have hacc₂ : ∀ c₁ ∈ cs, dlook c₁ (acc ++ [(c, f (n, c))]) = none := by
        intro c₁ hc₁
        rw [dlook_append, hacc c₁ (by simp [hc₁])]
        have : c ≠ c₁ := fun h => hnotin (h ▸ hc₁)
        simp [dlook, this]
      have ih := foldl_dinsert_enumFrom f cs (n + 1) (acc ++ [(c, f (n, c))]) hacc₂
        (List.nodup_cons.mp hnd).2
      simp only [List.enumFrom, List.foldl_cons, step, ih, List.map_cons, List.append_assoc,
        List.singleton_append]

theorem dlook_enumFrom_map {ν : Type} (f : Nat × String → ν) :
    ∀ (cities : List String) (n : Nat), cities.Nodup → ∀ i : Fin cities.length,
      dlook (cities.get i) ((cities.enumFrom n).map (fun p => (p.2, f p))) =
        some (f (n + i, cities.get i))
  | [], _, _, i => absurd i.2 (by simp)
  | c :: cs, n, hnd, ⟨0, _⟩ => by simp [List.enumFrom, dlook]
  | c :: cs, n, hnd, ⟨j + 1, hj⟩ => by
      have hnotin : c ∉ cs := (List.nodup_cons.mp hnd).1
      have hj' : j < cs.length := by simpa using hj
      have hmem : cs.get ⟨j, hj'⟩ ∈ cs := List.get_mem cs j hj'
      have hne : c ≠ cs.get ⟨j, hj'⟩ := fun h => hnotin (h ▸ hmem)
      have ih := dlook_enumFrom_map f cs (n + 1) (List.nodup_cons.mp hnd).2 ⟨j, hj'⟩
      have harith : n + 1 + (⟨j, hj'⟩ : Fin cs.length).val = n + (⟨j + 1, hj⟩ : Fin (c :: cs).length).val := by
        simp
        omega
      simp only [List.enumFrom, List.map_cons, List.get_cons_succ]
      rw [dlook, if_neg hne, ih, harith]

theorem allocateDays_eq (total_days : Nat) (cities : List String)
    (hne : cities ≠ []) (hnd : cities.Nodup) :
    allocateDays total_days cities = some (cities.enum.map (fun p =>
      (p.2, max 1 total_days / cities.length +
        if p.1 < max 1 total_days % cities.length then 1 else 0))) := by
  have hlen : ¬ cities.length = 0 := by simpa using hne
  unfold allocateDays
  rw [if_neg hlen]
  have h := foldl_dinsert_enumFrom
    (fun p => max 1 total_days / cities.length +
      if p.1 < max 1 total_days % cities.length then 1 else 0)
    cities 0 [] (fun c _ => rfl) hnd
  simpa [List.enum] using h

theorem sum_range_alloc (base rem : Nat) :
    ∀ N, ((List.range N).map (fun i => base + if i < rem then 1 else 0)).sum =
      N * base + min rem N
  | 0 => by simp
  | N + 1 => by
      rw [List.range_succ, List.map_append, List.sum_append, sum_range_alloc base rem N]
      simp only [List.map_cons, List.map_nil, List.sum_cons, List.sum_nil, Nat.succ_mul]
      split <;> omega

/-- C2 (amended with distinct cities): for total days ≥ 1 and a non-empty
duplicate-free city list, the allocation sums to the total and gives the
first `remainder` cities `base+1` days, the rest `base`. -/
theorem allocate_days_partition (total_days : Nat) (cities : List String)
    (h1 : 1 ≤ total_days) (h2 : cities ≠ []) (h3 : cities.Nodup) :
    ∃ alloc, allocateDays total_days cities = some alloc ∧
      (alloc.map (fun p => p.2)).sum = total_days ∧
      ∀ i : Fin cities.length,
        dlook (cities.get i) alloc =
          some (total_days / cities.length +
            if (i : Nat) < total_days % cities.length then 1 else 0) := by
  have hmax : max 1 total_days = total_days := by omega
  have hlen : 0 < cities.length := List.length_pos.mpr h2
  refine ⟨_, allocateDays_eq total_days cities h2 h3, ?_, ?_⟩
  · rw [List.map_map]
    have hfst : cities.enum.map (fun p => (Prod.fst p : Nat)) = List.range cities.length :=
      List.enum_map_fst cities
    have hcomp : ((fun p => p.2) ∘ fun p : Nat × String =>
        (p.2, max 1 total_days / cities.length +
          if p.1 < max 1 total_days % cities.length then 1 else 0)) =
        (fun i => max 1 total_days / cities.length +
          if i < max 1 total_days % cities.length then 1 else 0) ∘
          (fun p : Nat × String => p.1) := rfl
    rw [hcomp, ← List.map_map, hfst, sum_range_alloc, hmax]
    have hrem : total_days % cities.length < cities.length := Nat.mod_lt _ hlen
    have hdm := Nat.div_add_mod total_days cities.length
    omega
  · intro i
    have h := dlook_enumFrom_map
      (fun p => max 1 total_days / cities.length +
        if p.1 < max 1 total_days % cities.length then 1 else 0)
      cities 0 h3 i
    rw [List.enum] at *
    rw [h, hmax]
    simp

theorem allocate_days_partition_witness :
    1 ≤ 7 ∧ ∃ alloc, allocateDays 7 ["A", "B", "C"] = some alloc ∧
      (alloc.map (fun p => p.2)).sum = 7 ∧
      ∀ i : Fin (["A", "B", "C"] : List String).length,
        dlook ((["A", "B", "C"] : List String).get i) alloc =
          some (7 / 3 + if (i : Nat) < 7 % 3 then 1 else 0) :=
  ⟨by decide, allocate_days_partition 7 ["A", "B", "C"] (by decide) (by decide) (by decide)⟩

/-- C2 counterexample: with a duplicate city in the list (d = 3,
cities = ["A", "A"]), the Python dict write-back collapses the two entries:
the allocation is `{A: 1}`, whose values sum to 1 ≠ 3, and the first city
does not receive `base+1 = 2` days — refuting the claim as stated for
arbitrary (not duplicate-free) city lists. -/
theorem allocate_days_duplicate_counterexample :
    allocateDays 3 ["A", "A"] = some [("A", 1)] ∧
    (([("A", 1)] : List (String × Nat)).map (fun p => p.2)).sum = 1 ∧
    dlook "A" ([("A", 1)] : List (String × Nat)) = some 1 := by decide

/-! ## Day-level fitting (claim C4) -/

/-- C4: day-level budget fitting is idempotent — if the positive-cost total
is already within the non-negatively clamped envelope, every activity is
returned unchanged. -/
theorem fit_to_budget_idempotent (activities : List Activity) (budget_per_day : ℚ)
    (h : ((activities.filter (fun a => 0 < a.est_cost)).map (fun a => a.est_cost)).sum ≤
      max budget_per_day 0) :
    fitToBudget activities budget_per_day = activities := by
  unfold fitToBudget
  rw [if_pos h]

def actsC4 : List Activity :=
  [{ name := "Louvre", description := "", est_cost := 10 },
   { name := "Seine cruise", description := "", est_cost := 20 }]

theorem fit_to_budget_idempotent_witness :
    ((actsC4.filter (fun a => 0 < a.est_cost)).map (fun a => a.est_cost)).sum ≤
      max (40 : ℚ) 0 ∧
    fitToBudget actsC4 40 = actsC4 :=
  ⟨by with_unfolding_all decide,
   fit_to_budget_idempotent actsC4 40 (by with_unfolding_all decide)⟩

/-! ## Division-by-zero reachability (claim C6) -/

def prefsSameCity : TravelPreferences :=
  { origin_city := "Paris", destinations := ["Paris"], num_days := 1, num_locations := 1,
    total_budget := 100, start_date := some 0 }

/-- C6: the divisor `len(cities)` in `_allocate_days` is *not* clamped: with
an empty realized city list the division raises `ZeroDivisionError`
(embedded as `none`), and this is reachable from a valid preferences input
(num_days = 1, destinations = ["Paris"], origin "Paris", total_budget = 100)
because the route filters out destinations equal to the origin. -/
theorem allocate_days_division_by_zero :
    allocateDays 1 ([] : List String) = none ∧
    plannerRun (fun _ _ => []) prefsSameCity [] [] [] = none := by
  with_unfolding_all decide

/-! ## Route construction (claim C7) -/

theorem routeStep_subset (o : String) (r : List String) (c : String) : r ⊆ routeStep o r c := by
  unfold routeStep
  split_ifs <;> simp

theorem routeFold_subset (o : String) :
    ∀ (l : List String) (r : List String), r ⊆ l.foldl (routeStep o) r
  | [], _ => fun _ h => h
  | c :: cs, r => by
      rw [List.foldl_cons]
      exact (routeStep_subset o r c).trans (routeFold_subset o cs _)

theorem not_mem_routeStep (o : String) (r : List String) (c : String) (h : o ∉ r) :
    o ∉ routeStep o r c := by
  unfold routeStep
  split_ifs with h₁ h₂
  · exact h
  · exact h
  · simp [h, Ne.symm h₁]

theorem not_mem_routeFold (o : String) :
    ∀ (l : List String) (r : List String), o ∉ r → o ∉ l.foldl (routeStep o) r
  | [], _, h => h
  | c :: cs, r, h => by
      rw [List.foldl_cons]
      exact not_mem_routeFold o cs _ (not_mem_routeStep o r c h)

theorem nodup_routeStep (o : String) (r : List String) (c : String) (h : r.Nodup) :
    (routeStep o r c).Nodup := by
  unfold routeStep
  split_ifs with h₁ h₂
  · exact h
  · exact h
  · simp [List.nodup_append, h, h₂]

theorem nodup_routeFold (o : String) :
    ∀ (l : List String) (r : List String), r.Nodup → (l.foldl (routeStep o) r).Nodup
  | [], _, h => h
  | c :: cs, r, h => by
      rw [List.foldl_cons]
      exact nodup_routeFold o cs _ (nodup_routeStep o r c h)

theorem mem_routeFold (o : String) :
    ∀ (l : List String) (r : List String) (c : String), c ∈ l → c ≠ o →
      c ∈ l.foldl (routeStep o) r
  | [], _, _, hc, _ => absurd hc (by simp)
  | d :: ds, r, c, hc, ho => by
      rw [List.foldl_cons]
      rcases List.mem_cons.mp hc with h | h
      · subst h
        refine routeFold_subset o ds _ ?_
        unfold routeStep
        split_ifs with h₁ h₂
        · exact absurd h₁ ho
        · exact h₂
        · simp
      · exact mem_routeFold o ds _ c h ho

theorem build_city_route_eq (prefs : TravelPreferences) (flights : List FlightOption) :
    buildCityRoute prefs flights =
      ((sortByDepartDate flights).map (fun f => labelCity f.destination) ++
        prefs.destinations.map labelCity).foldl
        (routeStep (labelCity prefs.origin_city)) [] := by
  simp only [buildCityRoute, List.foldl_append, List.foldl_map]
  have hno : labelCity prefs.origin_city ∉
      ((sortByDepartDate flights).map (fun f => labelCity f.destination) ++
        prefs.destinations.map labelCity).foldl
        (routeStep (labelCity prefs.origin_city)) [] :=
    not_mem_routeFold _ _ [] (by simp)
  rw [List.foldl_append, List.foldl_map, List.foldl_map] at hno
  have hfilter :
      ((prefs.destinations.foldl
          (fun r d => routeStep (labelCity prefs.origin_city) r (labelCity d))
          ((sortByDepartDate flights).foldl
            (fun r f => routeStep (labelCity prefs.origin_city) r (labelCity f.destination))
            [])).filter (fun c => c ≠ labelCity prefs.origin_city)) =
        prefs.destinations.foldl
          (fun r d => routeStep (labelCity prefs.origin_city) r (labelCity d))
          ((sortByDepartDate flights).foldl
            (fun r f => routeStep (labelCity prefs.origin_city) r (labelCity f.destination))
            []) := by
    refine List.filter_eq_self.mpr ?_
    intro c hc
    have hcn : c ≠ labelCity prefs.origin_city := fun h => hno (h ▸ hc)
    simp [hcn]
  rw [hfilter]
  by_cases hemp : (prefs.destinations.foldl
      (fun r d => routeStep (labelCity prefs.origin_city) r (labelCity d))
      ((sortByDepartDate flights).foldl
        (fun r f => routeStep (labelCity prefs.origin_city) r (labelCity f.destination))
        [])).isEmpty
  · rw [if_pos hemp]
    have hnil := List.isEmpty_iff.mp hemp
    refine Eq.trans ?_ hnil.symm
    refine List.filter_eq_nil_iff.mpr ?_
    intro c hc
    by_cases hco : c = labelCity prefs.origin_city
    · simp [hco]
    exfalso
    have hmem : c ∈ prefs.destinations.foldl
        (fun r d => routeStep (labelCity prefs.origin_city) r (labelCity d))
        ((sortByDepartDate flights).foldl
          (fun r f => routeStep (labelCity prefs.origin_city) r (labelCity f.destination))
          []) := by
      have := mem_routeFold (labelCity prefs.origin_city)
        ((sortByDepartDate flights).map (fun f => labelCity f.destination) ++
          prefs.destinations.map labelCity) [] c
        (List.mem_append.mpr (Or.inr (by simpa using hc))) hco
      rw [List.foldl_append, List.foldl_map, List.foldl_map] at this
      exact this
    rw [hnil] at hmem
    exact absurd hmem (by simp)
  · rw [if_neg hemp]

/-- C7 (amended): the route is the deduplicating walk (origin excluded,
first occurrence wins) over the date-sorted flight destination labels
*followed by* the declared destination labels — the declared destinations
are always appended, not merely used as a fallback; the explicit fallback
branch fires only when this combined walk is empty, in which case it too
produces the empty route.  The result never contains the origin label and
has no duplicates. -/
theorem build_city_route_amended (prefs : TravelPreferences) (flights : List FlightOption) :
    buildCityRoute prefs flights =
      ((sortByDepartDate flights).map (fun f => labelCity f.destination) ++
        prefs.destinations.map labelCity).foldl
        (routeStep (labelCity prefs.origin_city)) [] ∧
    labelCity prefs.origin_city ∉ buildCityRoute prefs flights ∧
    (buildCityRoute prefs flights).Nodup := by
  refine ⟨build_city_route_eq prefs flights, ?_, ?_⟩
  · rw [build_city_route_eq]
    exact not_mem_routeFold _ _ [] (by simp)
  · rw [build_city_route_eq]
    exact nodup_routeFold _ _ [] (by simp)

/-- Route construction as claim C7 states it (definition follows the claim
text, for comparison): the declared destination order is used *only* as a
fallback when the flight-derived walk yields no entries. -/
def buildCityRouteSpec (prefs : TravelPreferences) (flights : List FlightOption) : List String :=
  let origin_label := labelCity prefs.origin_city
  let walk := (sortByDepartDate flights).foldl
    (fun r f => routeStep origin_label r (labelCity f.destination)) []
  if walk.isEmpty then
    (prefs.destinations.map labelCity).filter (fun c => c ≠ origin_label)
  else walk

def prefsC7 : TravelPreferences :=
  { origin_city := "Ooo", destinations := ["Bbb"], num_days := 3, num_locations := 1,
    total_budget := 500, start_date := some 0 }

def flightC7 : FlightOption :=
  { origin := "Ooo", destination := "Aaa", depart_date := "2024-05-01", airline := "X",
    price := 120, departure_time := "09:00", arrival_time := "11:00", booking_link := "" }

/-- C7 counterexample: one discovered flight Ooo→Aaa and declared destination
Bbb.  The flight-derived walk yields ["Aaa"] (non-empty), so per the claim
the declared order must not contribute; but the implementation still appends
the declared destination, producing ["Aaa", "Bbb"] ≠ ["Aaa"]. -/
theorem build_city_route_counterexample :
    buildCityRoute prefsC7 [flightC7] = ["Aaa", "Bbb"] ∧
    buildCityRouteSpec prefsC7 [flightC7] = ["Aaa"] ∧
    buildCityRoute prefsC7 [flightC7] ≠ buildCityRouteSpec prefsC7 [flightC7] := by
  with_unfolding_all decide

/-! ## Day assembly: empty pool (claim C10) and slot layout (claim C8) -/

/-- C10: if no attraction records are available for a city — the travel-guide
collaborator supplies none and the attractions client returns none — the
assembler emits *no* activities from `_activities_for_city`: no sightseeing
items and no "Getting around" local-transport item, even when a single-ride
transit fare is available; so a day's activity list holds only the first-day
transport/check-in entries or is empty. -/
theorem activities_for_city_empty_pool (attractionsOf : String → Nat → List AttractionRecord)
    (city : String) (budget_per_day : ℚ) (day_offset days_in_city : Nat)
    (guide : Option TravelGuideInfo)
    (hg : guide.elim [] (fun g => g.attractions) = ([] : List AttractionRecord))
    (hc : attractionsOf (labelCity city) (min 30 (max 6 (days_in_city * 3))) = []) :
    activitiesForCity attractionsOf city budget_per_day day_offset days_in_city guide = [] := by
  cases guide with
  | none => simp [activitiesForCity, attractionPool, hc]
  | some g =>
      simp only [Option.elim] at hg
      simp [activitiesForCity, attractionPool, hg, hc]

def guideC10 : TravelGuideInfo := { tips := [], transit_fare := some 2, attractions := [] }

theorem activities_for_city_empty_pool_witness :
    (some guideC10 : Option TravelGuideInfo).elim [] (fun g => g.attractions) =
      ([] : List AttractionRecord) ∧
    activitiesForCity (fun _ _ => []) "Paris" 100 0 1 (some guideC10) = [] :=
  ⟨rfl, activities_for_city_empty_pool _ _ _ _ _ _ rfl rfl⟩

/-- C8 (amended): for a day with a non-empty pool, a 3-item window rotated by
(day_offset × 3) mod pool length is selected (wrapping via modulo), and only
the first THREE fixed time slots — Morning 32%, Afternoon 28%, Evening 22% of
the day's envelope — are assigned, one per selected item, each cost
round2(max 0 (envelope × share)); the slot list is truncated to the window
length 3, so the fourth slot (Late 18%) is never assigned and no item
repetition occurs.  An optional local-transport item precedes them. -/
theorem activities_for_city_slots (attractionsOf : String → Nat → List AttractionRecord)
    (city : String) (budget_per_day : ℚ) (day_offset days_in_city : Nat)
    (guide : Option TravelGuideInfo)
    (hne : attractionPool attractionsOf city days_in_city guide ≠ []) :
    activitiesForCity attractionsOf city budget_per_day day_offset days_in_city guide =
      (if 0 < localTransportCost budget_per_day guide then
        [{ name := "Getting around", description := "Metro/tram/bus (typical single ride)",
           est_cost := localTransportCost budget_per_day guide }]
       else []) ++
      [slotActivity "Morning" (32/100) budget_per_day
        ((attractionPool attractionsOf city days_in_city guide).getD
          (((day_offset * 3) % (attractionPool attractionsOf city days_in_city guide).length + 0) %
            (attractionPool attractionsOf city days_in_city guide).length) default),
       slotActivity "Afternoon" (28/100) budget_per_day
        ((attractionPool attractionsOf city days_in_city guide).getD
          (((day_offset * 3) % (attractionPool attractionsOf city days_in_city guide).length + 1) %
            (attractionPool attractionsOf city days_in_city guide).length) default),
       slotActivity "Evening" (22/100) budget_per_day
        ((attractionPool attractionsOf city days_in_city guide).getD
          (((day_offset * 3) % (attractionPool attractionsOf city days_in_city guide).length + 2) %
            (attractionPool attractionsOf city days_in_city guide).length) default)] := by
  have hbe : (attractionPool attractionsOf city days_in_city guide).isEmpty = false := by
    simpa [List.isEmpty_iff] using hne
  unfold activitiesForCity
  rw [if_neg (by simp [hbe])]
  rfl

def attrsC8 : List AttractionRecord :=
  [{ name := "Colosseum", link := "" }, { name := "Forum", link := "" },
   { name := "Pantheon", link := "" }, { name := "Trevi Fountain", link := "" }]

theorem activities_for_city_slots_witness :
    attractionPool (fun _ _ => attrsC8) "Rome" 1 none ≠ [] ∧
    activitiesForCity (fun _ _ => attrsC8) "Rome" 100 0 1 none =
      (if 0 < localTransportCost 100 none then
        [{ name := "Getting around", description := "Metro/tram/bus (typical single ride)",
           est_cost := localTransportCost 100 none }]
       else []) ++
      [slotActivity "Morning" (32/100) 100
        ((attractionPool (fun _ _ => attrsC8) "Rome" 1 none).getD
          (((0 * 3) % (attractionPool (fun _ _ => attrsC8) "Rome" 1 none).length + 0) %
            (attractionPool (fun _ _ => attrsC8) "Rome" 1 none).length) default),
       slotActivity "Afternoon" (28/100) 100
        ((attractionPool (fun _ _ => attrsC8) "Rome" 1 none).getD
          (((0 * 3) % (attractionPool (fun _ _ => attrsC8) "Rome" 1 none).length + 1) %
            (attractionPool (fun _ _ => attrsC8) "Rome" 1 none).length) default),
       slotActivity "Evening" (22/100) 100
        ((attractionPool (fun _ _ => attrsC8) "Rome" 1 none).getD
          (((0 * 3) % (attractionPool (fun _ _ => attrsC8) "Rome" 1 none).length + 2) %
            (attractionPool (fun _ _ => attrsC8) "Rome" 1 none).length) default)] :=
  ⟨by with_unfolding_all decide,
   activities_for_city_slots (fun _ _ => attrsC8) "Rome" 100 0 1 none
     (by with_unfolding_all decide)⟩

/-- C8 counterexample: with a 4-item pool, a positive envelope and no transit
fare, the code emits exactly three slot activities (Morning, Afternoon,
Evening); the claimed fourth slot ("Late", 18%) is never assigned, because
`slots[: len(selected)]` truncates the slot table to the 3-item window. -/
theorem activities_for_city_counterexample :
    ((activitiesForCity (fun _ _ => attrsC8) "Rome" 100 0 1 none).map (fun a => a.name)) =
      ["Morning: Colosseum", "Afternoon: Forum", "Evening: Pantheon"] := by
  with_unfolding_all decide

/-! ## Destination coverage (claim C5) -/

theorem mkDay_city (attractionsOf : String → Nat → List AttractionRecord)
    (flights : List FlightOption) (hotels : List HotelOption)
    (guides : List (String × TravelGuideInfo)) (budget : ℚ)
    (prev city : String) (day_idx days_in_city : Nat) (date : Int) :
    (mkDay attractionsOf flights hotels guides budget prev city day_idx days_in_city date).city =
      labelCity city := rfl

theorem assembleDays_city_mem (attractionsOf : String → Nat → List AttractionRecord)
    (flights : List FlightOption) (hotels : List HotelOption)
    (guides : List (String × TravelGuideInfo)) (alloc : List (String × Nat)) (budget : ℚ) :
    ∀ (cities : List String) (date : Int) (prev : String) (c : String), c ∈ cities →
      1 ≤ (dlook c alloc).getD 0 →
      ∃ day ∈ assembleDays attractionsOf flights hotels guides alloc budget cities date prev,
        day.city = labelCity c
  | [], _, _, c, hc, _ => absurd hc (by simp)
  | d :: ds, date, prev, c, hc, hn => by
      rcases List.mem_cons.mp hc with h | h
      · subst h
        refine ⟨mkDay attractionsOf flights hotels guides budget prev c 0
          ((dlook c alloc).getD 0) date, ?_, mkDay_city _ _ _ _ _ _ _ _ _ _⟩
        unfold assembleDays
        refine List.mem_append.mpr (Or.inl ?_)
        refine List.mem_map.mpr ⟨0, ?_, by simp⟩
        exact List.mem_range.mpr (by omega)
      · obtain ⟨day, hday, hcity⟩ :=
          assembleDays_city_mem attractionsOf flights hotels guides alloc budget ds
            (date + ((dlook d alloc).getD 0 : Nat)) d c h hn
        refine ⟨day, ?_, hcity⟩
        unfold assembleDays
        exact List.mem_append.mpr (Or.inr hday)

/-- C5 (amended): for valid preferences whose `num_days` is moreover at least
the number of realized route cities (and a non-empty realized route), every
destination city of the realized route appears as the city of at least one
`ItineraryDay` of the produced itinerary. -/
theorem planner_run_destinations_covered (attractionsOf : String → Nat → List AttractionRecord)
    (prefs : TravelPreferences) (flights : List FlightOption) (hotels : List HotelOption)
    (guides : List (String × TravelGuideInfo)) (d₀ : Int)
    (hstart : prefs.start_date = some d₀)
    (hne : buildCityRoute prefs flights ≠ [])
    (hdays : (buildCityRoute prefs flights).length ≤ prefs.num_days) :
    ∃ itin, plannerRun attractionsOf prefs flights hotels guides = some itin ∧
      ∀ c ∈ itin.destinations, ∃ day ∈ itin.days, day.city = c := by
  have hnd : (buildCityRoute prefs flights).Nodup := by
    rw [build_city_route_eq]
    exact nodup_routeFold _ _ [] (by simp)
  have halloc := allocateDays_eq prefs.num_days (buildCityRoute prefs flights) hne hnd
  have hsome : (plannerRun attractionsOf prefs flights hotels guides).isSome := by
    simp only [plannerRun, hstart, halloc, Option.isSome_some]
  obtain ⟨itin, hplan⟩ := Option.isSome_iff_exists.mp hsome
  refine ⟨itin, hplan, ?_⟩
  simp only [plannerRun, hstart, halloc, Option.some.injEq] at hplan
  obtain rfl := hplan.symm
  intro c hc
  simp only [List.mem_map] at hc
  obtain ⟨c₀, hc₀, rfl⟩ := hc
  -- the allocated day count of every route city is at least 1
  have hlook : 1 ≤ ((dlook c₀ ((buildCityRoute prefs flights).enum.map (fun p =>
      (p.2, max 1 prefs.num_days / (buildCityRoute prefs flights).length +
        if p.1 < max 1 prefs.num_days % (buildCityRoute prefs flights).length then 1
        else 0)))).getD 0) := by
    obtain ⟨i, hi⟩ := List.mem_iff_get.mp hc₀
    have h := dlook_enumFrom_map
      (fun p => max 1 prefs.num_days / (buildCityRoute prefs flights).length +
        if p.1 < max 1 prefs.num_days % (buildCityRoute prefs flights).length then 1 else 0)
      (buildCityRoute prefs flights) 0 hnd i
    rw [List.enum_eq_enumFrom]
    rw [hi] at h
    rw [h]
    have hlen : 0 < (buildCityRoute prefs flights).length := List.length_pos.mpr hne
    have hbase : 1 ≤ max 1 prefs.num_days / (buildCityRoute prefs flights).length := by
      rw [Nat.one_le_div_iff hlen]
      omega
    simp only [Option.getD_some]
    omega
  obtain ⟨day, hday, hcity⟩ := assembleDays_city_mem attractionsOf flights hotels guides _
    (estimateActivityBudget prefs flights hotels _) (buildCityRoute prefs flights) d₀
    prefs.origin_city c₀ hc₀ hlook
  exact ⟨day, hday, hcity⟩

def prefsC5w : TravelPreferences :=
  { origin_city := "Ooo", destinations := ["Bbb"], num_days := 1, num_locations := 1,
    total_budget := 0, start_date := some 0 }

theorem planner_run_destinations_covered_witness :
    ∃ itin, plannerRun (fun _ _ => []) prefsC5w [] [] [] = some itin ∧
      ∀ c ∈ itin.destinations, ∃ day ∈ itin.days, day.city = c :=
  planner_run_destinations_covered (fun _ _ => []) prefsC5w [] [] [] 0 rfl
    (by with_unfolding_all decide) (by with_unfolding_all decide)

def prefsC5x : TravelPreferences :=
  { origin_city := "Ooo", destinations := ["Aaa", "Bbb"], num_days := 1, num_locations := 2,
    total_budget := 0, start_date := some 0 }

def itinC5x : Itinerary :=
  { origin := "Ooo", destinations := ["Aaa", "Bbb"],
    days := [{ date := 0, city := "Aaa",
               activities := [{ name := "Intercity transport",
                                description := "Train/bus transfer to Aaa (price varies)",
                                est_cost := 0 }],
               transport := some "Travel to Aaa (train/bus recommended)" }] }

/-- C5 counterexample: a valid preferences input (num_days = 1 ≥ 1, non-empty
destination list ["Aaa", "Bbb"]) for which route city Bbb receives 0 allocated
days: Bbb appears in the produced itinerary's destinations but no itinerary
day has city Bbb, refuting the claim as stated. -/
theorem planner_run_destination_missing_counterexample :
    plannerRun (fun _ _ => []) prefsC5x [] [] [] = some itinC5x ∧
    "Bbb" ∈ itinC5x.destinations ∧
    itinC5x.days.all (fun day => day.city ≠ "Bbb") := by
  with_unfolding_all decide

/-! ## Non-negativity of activity costs (claim C9) -/

theorem estimateActivityBudget_nonneg (prefs : TravelPreferences)
    (flights : List FlightOption) (hotels : List HotelOption)
    (days_per_city : List (String × Nat)) :
    0 ≤ estimateActivityBudget prefs flights hotels days_per_city := by
  simp only [estimateActivityBudget]
  split
  · exact le_refl 0
  · rename_i hrem
    push_neg at hrem
    apply div_nonneg (le_of_lt hrem)
    split
    · norm_num
    · positivity

theorem zeroLast_nonneg (l : List Activity) (h : ∀ a ∈ l, 0 ≤ a.est_cost) :
    ∀ a ∈ zeroLast l, 0 ≤ a.est_cost := by
  induction l with
  | nil => simp [zeroLast]
  | cons x rest ih =>
      cases rest with
      | nil =>
          intro a ha
          simp only [zeroLast, List.mem_singleton] at ha
          subst ha
          norm_num
      | cons y rest₂ =>
          intro a ha
          simp only [zeroLast, List.mem_cons] at ha
          rcases ha with rfl | ha
          · exact h a (by simp)
          · exact ih (fun b hb => h b (List.mem_cons_of_mem _ hb)) a
              (by simpa [zeroLast] using ha)

theorem fitToBudget_nonneg (acts : List Activity) (b : ℚ) (hb : 0 ≤ b)
    (h : ∀ a ∈ acts, 0 ≤ a.est_cost) : ∀ a ∈ fitToBudget acts b, 0 ≤ a.est_cost := by
  simp only [fitToBudget]
  split
  · exact h
  split
  · exact h
  rename_i htot _
  push_neg at htot
  have htot' : 0 < ((acts.filter (fun a => 0 < a.est_cost)).map (fun a => a.est_cost)).sum :=
    lt_of_le_of_lt (le_max_right b 0) htot
  have hscale :
      0 ≤ b / ((acts.filter (fun a => 0 < a.est_cost)).map (fun a => a.est_cost)).sum :=
    div_nonneg hb (le_of_lt htot')
  split
  · refine fun a ha => zeroLast_nonneg _ ?_ a ha
    intro a₁ ha₁
    obtain ⟨a₀, ha₀, rfl⟩ := List.mem_map.mp ha₁
    split
    · rename_i hpos
      exact rnd2_nonneg _ (mul_nonneg (le_of_lt hpos) hscale)
    · exact h a₀ ha₀
  · intro a ha
    obtain ⟨a₀, ha₀, rfl⟩ := List.mem_map.mp ha
    split
    · rename_i hpos
      exact rnd2_nonneg _ (mul_nonneg (le_of_lt hpos) hscale)
    · exact h a₀ ha₀

theorem firstDayTransport_nonneg (flights : List FlightOption) (b : ℚ) (prev city : String) :
    ∀ a ∈ (firstDayTransport flights b prev city).2, 0 ≤ a.est_cost := by
  unfold firstDayTransport
  cases findLeg prev city flights with
  | none => simp [intercityTransportCost]
  | some leg => simp [groundTransferCost]

theorem activitiesForCity_nonneg (attractionsOf : String → Nat → List AttractionRecord)
    (city : String) (b : ℚ) (day_offset days_in_city : Nat) (guide : Option TravelGuideInfo) :
    ∀ a ∈ activitiesForCity attractionsOf city b day_offset days_in_city guide,
      0 ≤ a.est_cost := by
  intro a ha
  simp only [activitiesForCity] at ha
  split at ha
  · exact absurd ha (by simp)
  rcases List.mem_append.mp ha with h | h
  · split at h
    · rename_i hpos
      simp only [List.mem_singleton] at h
      subst h
      exact le_of_lt hpos
    · exact absurd h (by simp)
  · obtain ⟨p, _, rfl⟩ := List.mem_map.mp h
    exact rnd2_nonneg _ (le_max_left 0 _)

theorem mkDay_nonneg (attractionsOf : String → Nat → List AttractionRecord)
    (flights : List FlightOption) (hotels : List HotelOption)
    (guides : List (String × TravelGuideInfo)) (budget : ℚ) (hb : 0 ≤ budget)
    (prev city : String) (day_idx days_in_city : Nat) (date : Int) :
    ∀ a ∈ (mkDay attractionsOf flights hotels guides budget prev city day_idx days_in_city
      date).activities, 0 ≤ a.est_cost := by
  apply fitToBudget_nonneg _ _ hb
  intro a ha
  rcases List.mem_append.mp ha with h | h
  · split at h
    · rcases List.mem_append.mp h with h₁ | h₁
      · exact firstDayTransport_nonneg flights budget prev city a h₁
      · split at h₁
        · exact absurd h₁ (by simp)
        · simp only [List.mem_singleton] at h₁
          subst h₁
          norm_num [checkinActivity]
    · exact absurd h (by simp)
  · exact activitiesForCity_nonneg attractionsOf city budget day_idx days_in_city _ a h

theorem assembleDays_nonneg (attractionsOf : String → Nat → List AttractionRecord)
    (flights : List FlightOption) (hotels : List HotelOption)
    (guides : List (String × TravelGuideInfo)) (alloc : List (String × Nat)) (budget : ℚ)
    (hb : 0 ≤ budget) :
    ∀ (cities : List String) (date : Int) (prev : String),
      ∀ day ∈ assembleDays attractionsOf flights hotels guides alloc budget cities date prev,
        ∀ a ∈ day.activities, 0 ≤ a.est_cost
  | [], _, _ => by simp [assembleDays]
  | c :: cs, date, prev => by
      intro day hday
      unfold assembleDays at hday
      rcases List.mem_append.mp hday with h | h
      · obtain ⟨i, _, rfl⟩ := List.mem_map.mp h
        exact mkDay_nonneg attractionsOf flights hotels guides budget hb prev c i _ _
      · exact assembleDays_nonneg attractionsOf flights hotels guides alloc budget hb cs _ c
          day h

theorem plannerRun_nonneg (attractionsOf : String → Nat → List AttractionRecord)
    (prefs : TravelPreferences) (flights : List FlightOption) (hotels : List HotelOption)
    (guides : List (String × TravelGuideInfo)) (itin : Itinerary)
    (hplan : plannerRun attractionsOf prefs flights hotels guides = some itin) :
    ∀ day ∈ itin.days, ∀ a ∈ day.activities, 0 ≤ a.est_cost := by
  rcases hsd : prefs.start_date with _ | d₀
  · simp only [plannerRun, hsd] at hplan
    exact Option.noConfusion hplan
  rcases halloc : allocateDays prefs.num_days (buildCityRoute prefs flights) with _ | alloc
  · simp only [plannerRun, hsd, halloc] at hplan
    exact Option.noConfusion hplan
  simp only [plannerRun, hsd, halloc, Option.some.injEq] at hplan
  obtain rfl := hplan.symm
  exact assembleDays_nonneg attractionsOf flights hotels guides alloc _
    (estimateActivityBudget_nonneg prefs flights hotels alloc) _ d₀ prefs.origin_city

theorem scaleActivityCosts_nonneg (itin : Itinerary) (s : ℚ) (hs : 0 ≤ s)
    (h : ∀ day ∈ itin.days, ∀ a ∈ day.activities, 0 ≤ a.est_cost) :
    ∀ day ∈ (scaleActivityCosts itin s).days, ∀ a ∈ day.activities, 0 ≤ a.est_cost := by
  intro day hday a ha
  simp only [scaleActivityCosts] at hday
  obtain ⟨day₀, hday₀, rfl⟩ := List.mem_map.mp hday
  simp only at ha
  obtain ⟨a₀, ha₀, rfl⟩ := List.mem_map.mp ha
  exact rnd2_nonneg _ (mul_nonneg (h day₀ hday₀ a₀ ha₀) hs)

theorem optimizerRun_itinerary_nonneg (prefs : TravelPreferences)
    (flights : List FlightOption) (hotels : List HotelOption) (itin : Itinerary)
    (h : ∀ day ∈ itin.days, ∀ a ∈ day.activities, 0 ≤ a.est_cost) :
    ∀ day ∈ (optimizerRun prefs flights hotels itin).2.2.2.days, ∀ a ∈ day.activities,
      0 ≤ a.est_cost := by
  simp only [optimizerRun]
  split
  · split
    · exact scaleActivityCosts_nonneg itin _ (le_max_left 0 _) h
    · exact h
  · exact h

/-- C9: `Activity.est_cost` is non-negative throughout the pipeline: for any
input with `total_budget ≥ 0`, every activity of the planner's itinerary has
non-negative cost (activities are created non-negative and the per-day
fitting pass preserves this), and the optimizer's global reconciliation pass
preserves non-negativity of every activity of every day. -/
theorem activity_costs_nonneg (attractionsOf : String → Nat → List AttractionRecord)
    (prefs : TravelPreferences) (flights : List FlightOption) (hotels : List HotelOption)
    (guides : List (String × TravelGuideInfo)) (itin : Itinerary)
    (_hb : 0 ≤ prefs.total_budget)
    (hplan : plannerRun attractionsOf prefs flights hotels guides = some itin) :
    (∀ day ∈ itin.days, ∀ a ∈ day.activities, 0 ≤ a.est_cost) ∧
    (∀ itin₂ : Itinerary, (∀ day ∈ itin₂.days, ∀ a ∈ day.activities, 0 ≤ a.est_cost) →
      ∀ day ∈ (optimizerRun prefs flights hotels itin₂).2.2.2.days, ∀ a ∈ day.activities,
        0 ≤ a.est_cost) :=
  ⟨plannerRun_nonneg attractionsOf prefs flights hotels guides itin hplan,
   fun itin₂ h₂ => optimizerRun_itinerary_nonneg prefs flights hotels itin₂ h₂⟩

def prefsC9 : TravelPreferences :=
  { origin_city := "Ooo", destinations := ["Bbb"], num_days := 1, num_locations := 1,
    total_budget := 50, start_date := some 0 }

def guidesC9 : List (String × TravelGuideInfo) :=
  [("Bbb", { tips := [], transit_fare := some 3,
             attractions := [{ name := "Museum", link := "" }] })]

def itinC9 : Itinerary :=
  { origin := "Ooo", destinations := ["Bbb"],
    days := [{ date := 0, city := "Bbb",
               activities := [
                 { name := "Intercity transport",
                   description := "Train/bus transfer to Bbb (price varies)", est_cost := 0 },
                 { name := "Getting around",
                   description := "Metro/tram/bus (typical single ride)", est_cost := 3 },
                 { name := "Morning: Museum", description := "", est_cost := 16 },
                 { name := "Afternoon: Museum", description := "", est_cost := 14 },
                 { name := "Evening: Museum", description := "", est_cost := 11 }],
               transport := some "Travel to Bbb (train/bus recommended)" }] }

theorem activity_costs_nonneg_witness :
    0 ≤ prefsC9.total_budget ∧
    plannerRun (fun _ _ => []) prefsC9 [] [] guidesC9 = some itinC9 ∧
    (∀ day ∈ itinC9.days, ∀ a ∈ day.activities, 0 ≤ a.est_cost) ∧
    (∀ itin₂ : Itinerary, (∀ day ∈ itin₂.days, ∀ a ∈ day.activities, 0 ≤ a.est_cost) →
      ∀ day ∈ (optimizerRun prefsC9 [] [] itin₂).2.2.2.days, ∀ a ∈ day.activities,
        0 ≤ a.est_cost) := by
  have h := activity_costs_nonneg (fun _ _ => []) prefsC9 [] [] guidesC9 itinC9
    (by with_unfolding_all decide) (by with_unfolding_all decide)
  exact ⟨by with_unfolding_all decide, by with_unfolding_all decide, h.1, h.2⟩

/-! ## Global reconciliation (claim C1) -/

/-- `flight_cost` of `BudgetOptimizerAgent.run`. -/
def flightCostOf (prefs : TravelPreferences) (flights : List FlightOption)
    (itinerary : Itinerary) : ℚ :=
  ((selectFlights prefs flights itinerary).map (fun f => f.price)).sum

/-- `total_nights` of `BudgetOptimizerAgent.run`. -/
def totalNightsOf (prefs : TravelPreferences) (itinerary : Itinerary) : Nat :=
  match ((nightsPerCity itinerary).map (fun p => p.2)).sum with
  | 0 => max 1 prefs.num_days
  | n => n

/-- `chosen_hotels` of `BudgetOptimizerAgent.run`. -/
def chosenHotelsFull (prefs : TravelPreferences) (flights : List FlightOption)
    (hotels : List HotelOption) (itinerary : Itinerary) : List (String × HotelOption) :=
  chosenHotelsOf prefs hotels (nightsPerCity itinerary)
    (hotelBudgetPerCity prefs (nightsPerCity itinerary) (totalNightsOf prefs itinerary)
      (max 0 (prefs.total_budget - flightCostOf prefs flights itinerary)))
    (max 0 (prefs.total_budget - flightCostOf prefs flights itinerary))

/-- `hotel_cost` of `BudgetOptimizerAgent.run`. -/
def hotelCostFull (prefs : TravelPreferences) (flights : List FlightOption)
    (hotels : List HotelOption) (itinerary : Itinerary) : ℚ :=
  hotelCostOf (chosenHotelsFull prefs flights hotels itinerary) (nightsPerCity itinerary)

/-- The reconciliation scale of `BudgetOptimizerAgent.run` (line 110). -/
def reconScale (prefs : TravelPreferences) (flights : List FlightOption)
    (hotels : List HotelOption) (itinerary : Itinerary) : ℚ :=
  max 0 (min 1 (max 0 (prefs.total_budget - flightCostOf prefs flights itinerary -
    hotelCostFull prefs flights hotels itinerary) / activitiesCostOf itinerary))

/-- Total number of activities across all days. -/
def numActivities (itinerary : Itinerary) : Nat :=
  (itinerary.days.map (fun day => day.activities.length)).sum

/-- `BudgetOptimizerAgent.run` re-expressed through the named intermediate
quantities (definitional unfolding). -/
theorem optimizerRun_unfold (prefs : TravelPreferences) (flights : List FlightOption)
    (hotels : List HotelOption) (itinerary : Itinerary) :
    optimizerRun prefs flights hotels itinerary =
      if prefs.total_budget < flightCostOf prefs flights itinerary +
          hotelCostFull prefs flights hotels itinerary + activitiesCostOf itinerary ∧
          0 < activitiesCostOf itinerary then
        if reconScale prefs flights hotels itinerary < 1 then
          (selectFlights prefs flights itinerary,
           chosenHotelsFull prefs flights hotels itinerary,
           { flights := flightCostOf prefs flights itinerary,
             hotels := hotelCostFull prefs flights hotels itinerary,
             activities := activitiesCostOf
               (scaleActivityCosts itinerary (reconScale prefs flights hotels itinerary)) },
           scaleActivityCosts itinerary (reconScale prefs flights hotels itinerary))
        else
          (selectFlights prefs flights itinerary,
           chosenHotelsFull prefs flights hotels itinerary,
           { flights := flightCostOf prefs flights itinerary,
             hotels := hotelCostFull prefs flights hotels itinerary,
             activities := activitiesCostOf itinerary }, itinerary)
      else
        (selectFlights prefs flights itinerary,
         chosenHotelsFull prefs flights hotels itinerary,
         { flights := flightCostOf prefs flights itinerary,
           hotels := hotelCostFull prefs flights hotels itinerary,
           activities := activitiesCostOf itinerary }, itinerary) := rfl

theorem sum_rnd2_scale_le (s : ℚ) :
    ∀ acts : List Activity,
      ((acts.map (fun a => rnd2 (a.est_cost * s))).sum) ≤
        s * (acts.map (fun a => a.est_cost)).sum + (acts.length : ℚ) / 200
  | [] => by simp
  | a :: rest => by
      have ih := sum_rnd2_scale_le s rest
      have hle := rnd2_le (a.est_cost * s)
      simp only [List.map_cons, List.sum_cons, List.length_cons]
      push_cast
      ring_nf
      ring_nf at ih hle
      linarith

theorem days_scale_le (s : ℚ) :
    ∀ days : List ItineraryDay,
      (days.map (fun day => (day.activities.map (fun a => rnd2 (a.est_cost * s))).sum)).sum ≤
        s * (days.map (fun day => (day.activities.map (fun a => a.est_cost)).sum)).sum +
        ((days.map (fun day => day.activities.length)).sum : ℚ) / 200
  | [] => by simp
  | d :: ds => by
      have ih := days_scale_le s ds
      have hd := sum_rnd2_scale_le s d.activities
      simp only [List.map_cons, List.sum_cons]
      rw [mul_add, add_div]
      push_cast at ih ⊢
      linarith

theorem activitiesCostOf_scale_le (itin : Itinerary) (s : ℚ) :
    activitiesCostOf (scaleActivityCosts itin s) ≤
      s * activitiesCostOf itin + (numActivities itin : ℚ) / 200 := by
  have h := days_scale_le s itin.days
  unfold activitiesCostOf scaleActivityCosts numActivities
  simpa [List.map_map, Function.comp_def] using h

/-- C1 (amended): whenever the recomputed total spend exceeds `total_budget`
and the activity cost is positive, the reconciliation scale equals
clamp(0, 1, (total_budget − flights − hotels) / activities), every activity's
cost across every day is multiplied by it (rounded to 2 decimals), and the
resulting total spend does not exceed
max(total_budget, flights + hotels) + 0.005 × (number of activities):
when flights + hotels alone exceed the budget the scaled-to-zero activities
cannot bring the total below flights + hotels, and per-activity rounding can
overshoot by up to half a cent each. -/
theorem global_reconciliation (prefs : TravelPreferences) (flights : List FlightOption)
    (hotels : List HotelOption) (itinerary : Itinerary)
    (hover : prefs.total_budget < flightCostOf prefs flights itinerary +
      hotelCostFull prefs flights hotels itinerary + activitiesCostOf itinerary)
    (hpos : 0 < activitiesCostOf itinerary) :
    reconScale prefs flights hotels itinerary =
      max 0 (min 1 ((prefs.total_budget - flightCostOf prefs flights itinerary -
        hotelCostFull prefs flights hotels itinerary) / activitiesCostOf itinerary)) ∧
    (optimizerRun prefs flights hotels itinerary).2.2.2 =
      scaleActivityCosts itinerary (reconScale prefs flights hotels itinerary) ∧
    (optimizerRun prefs flights hotels itinerary).2.2.1.total ≤
      max prefs.total_budget (flightCostOf prefs flights itinerary +
        hotelCostFull prefs flights hotels itinerary) +
      (numActivities itinerary : ℚ) / 200 := by
  have hA := hpos
  have ht : prefs.total_budget - flightCostOf prefs flights itinerary -
      hotelCostFull prefs flights hotels itinerary < activitiesCostOf itinerary := by
    linarith
  -- the scale is strictly below 1, so the scaling branch is taken
  have hscale_lt : reconScale prefs flights hotels itinerary < 1 := by
    unfold reconScale
    rcases le_total 0 (prefs.total_budget - flightCostOf prefs flights itinerary -
        hotelCostFull prefs flights hotels itinerary) with h | h
    · rw [max_eq_right h]
      have hdiv : (prefs.total_budget - flightCostOf prefs flights itinerary -
          hotelCostFull prefs flights hotels itinerary) / activitiesCostOf itinerary < 1 :=
        (div_lt_one hA).mpr ht
      have hdivnn : 0 ≤ (prefs.total_budget - flightCostOf prefs flights itinerary -
          hotelCostFull prefs flights hotels itinerary) / activitiesCostOf itinerary :=
        div_nonneg h (le_of_lt hA)
      rw [min_eq_right (le_of_lt hdiv), max_eq_right hdivnn]
      exact hdiv
    · have hmax0 : max 0 (prefs.total_budget - flightCostOf prefs flights itinerary -
          hotelCostFull prefs flights hotels itinerary) = 0 := max_eq_left h
      rw [hmax0, zero_div, min_eq_right (by norm_num : (0:ℚ) ≤ 1), max_self]
      norm_num
  have hclamp : reconScale prefs flights hotels itinerary =
      max 0 (min 1 ((prefs.total_budget - flightCostOf prefs flights itinerary -
        hotelCostFull prefs flights hotels itinerary) / activitiesCostOf itinerary)) := by
    unfold reconScale
    rcases le_total 0 (prefs.total_budget - flightCostOf prefs flights itinerary -
        hotelCostFull prefs flights hotels itinerary) with h | h
    · rw [max_eq_right h]
    · have hmax0 : max 0 (prefs.total_budget - flightCostOf prefs flights itinerary -
          hotelCostFull prefs flights hotels itinerary) = 0 := max_eq_left h
      have hneg : (prefs.total_budget - flightCostOf prefs flights itinerary -
          hotelCostFull prefs flights hotels itinerary) / activitiesCostOf itinerary ≤ 0 :=
        div_nonpos_of_nonpos_of_nonneg h (le_of_lt hA)
      rw [hmax0, zero_div, min_eq_right (by norm_num : (0:ℚ) ≤ 1), max_self,
        min_eq_right (hneg.trans (by norm_num)), max_eq_left hneg]
  refine ⟨hclamp, ?_, ?_⟩
  · rw [optimizerRun_unfold, if_pos ⟨hover, hpos⟩, if_pos hscale_lt]
  · rw [optimizerRun_unfold, if_pos ⟨hover, hpos⟩, if_pos hscale_lt]
    show flightCostOf prefs flights itinerary + hotelCostFull prefs flights hotels itinerary +
      activitiesCostOf (scaleActivityCosts itinerary (reconScale prefs flights hotels itinerary)) ≤ _
    have hscaled := activitiesCostOf_scale_le itinerary (reconScale prefs flights hotels itinerary)
    -- the scale times the activity cost stays below the allowed amount
    have hsA : reconScale prefs flights hotels itinerary * activitiesCostOf itinerary ≤
        max 0 (prefs.total_budget - flightCostOf prefs flights itinerary -
          hotelCostFull prefs flights hotels itinerary) := by
      have hallow : 0 ≤ max 0 (prefs.total_budget - flightCostOf prefs flights itinerary -
          hotelCostFull prefs flights hotels itinerary) := le_max_left _ _
      have hdivnn : 0 ≤ max 0 (prefs.total_budget - flightCostOf prefs flights itinerary -
          hotelCostFull prefs flights hotels itinerary) / activitiesCostOf itinerary :=
        div_nonneg hallow (le_of_lt hA)
      have hs_le : reconScale prefs flights hotels itinerary ≤
          max 0 (prefs.total_budget - flightCostOf prefs flights itinerary -
            hotelCostFull prefs flights hotels itinerary) / activitiesCostOf itinerary := by
        unfold reconScale
        rw [max_eq_right (le_min (by norm_num) hdivnn)]
        exact min_le_right _ _
      calc reconScale prefs flights hotels itinerary * activitiesCostOf itinerary
          ≤ (max 0 (prefs.total_budget - flightCostOf prefs flights itinerary -
              hotelCostFull prefs flights hotels itinerary) / activitiesCostOf itinerary) *
              activitiesCostOf itinerary :=
            mul_le_mul_of_nonneg_right hs_le (le_of_lt hA)
        _ = max 0 (prefs.total_budget - flightCostOf prefs flights itinerary -
              hotelCostFull prefs flights hotels itinerary) :=
            div_mul_cancel₀ _ (ne_of_gt hA)
    have hfh : flightCostOf prefs flights itinerary +
        hotelCostFull prefs flights hotels itinerary +
        max 0 (prefs.total_budget - flightCostOf prefs flights itinerary -
          hotelCostFull prefs flights hotels itinerary) ≤
        max prefs.total_budget (flightCostOf prefs flights itinerary +
          hotelCostFull prefs flights hotels itinerary) := by
      rcases le_total (prefs.total_budget - flightCostOf prefs flights itinerary -
          hotelCostFull prefs flights hotels itinerary) 0 with h | h
      · rw [max_eq_left h]
        have := le_max_right prefs.total_budget (flightCostOf prefs flights itinerary +
          hotelCostFull prefs flights hotels itinerary)
        linarith
      · rw [max_eq_right h]
        have := le_max_left prefs.total_budget (flightCostOf prefs flights itinerary +
          hotelCostFull prefs flights hotels itinerary)
        linarith
    linarith

def prefsC1 : TravelPreferences :=
  { origin_city := "Ooo", destinations := ["Aaa"], num_days := 1, num_locations := 1,
    total_budget := 1000, start_date := some 0 }

def flightC1 : FlightOption :=
  { origin := "Ooo", destination := "Aaa", depart_date := "2024-05-01", airline := "X",
    price := 600, departure_time := "10:00", arrival_time := "12:00", booking_link := "" }

def hotelC1 : HotelOption :=
  { name := "Grand", location := "Aaa", check_in := "", check_out := "", price := 500,
    rating := 4, reviews := 10, link := "" }

def itinC1 : Itinerary :=
  { origin := "Ooo", destinations := ["Aaa"],
    days := [{ date := 0, city := "Aaa",
               activities := [{ name := "Tour", description := "", est_cost := 50 }] }] }

set_option maxRecDepth 8000 in
/-- C1 counterexample: budget 1000, selected flight 600, selected hotel 500
(the over-budget hotel fallback), activities 50.  The reconciliation branch
fires (1150 > 1000, activities positive) but the scale clamps to 0 and total
spend remains 1100 > 1000: the resulting total spend exceeds the budget,
refuting the claim's final conjunct as stated. -/
theorem global_reconciliation_counterexample :
    prefsC1.total_budget < flightCostOf prefsC1 [flightC1] itinC1 +
      hotelCostFull prefsC1 [flightC1] [hotelC1] itinC1 + activitiesCostOf itinC1 ∧
    0 < activitiesCostOf itinC1 ∧
    (optimizerRun prefsC1 [flightC1] [hotelC1] itinC1).2.2.1.total = 1100 ∧
    ¬ ((optimizerRun prefsC1 [flightC1] [hotelC1] itinC1).2.2.1.total ≤
      prefsC1.total_budget) := by
  with_unfolding_all decide

theorem global_reconciliation_witness :
    (optimizerRun prefsC1 [flightC1] [hotelC1] itinC1).2.2.1.total ≤
      max prefsC1.total_budget (flightCostOf prefsC1 [flightC1] itinC1 +
        hotelCostFull prefsC1 [flightC1] [hotelC1] itinC1) +
      (numActivities itinC1 : ℚ) / 200 :=
  (global_reconciliation prefsC1 [flightC1] [hotelC1] itinC1
    (by with_unfolding_all decide) (by with_unfolding_all decide)).2.2

/-! ## Flight selection (claim C3) -/

instance : IsTotal FlightOption fle :=
  ⟨fun a b => le_total (flightSortKey a) (flightSortKey b)⟩

instance : IsTrans FlightOption fle :=
  ⟨fun _ _ _ h₁ h₂ => le_trans h₁ h₂⟩

theorem sortFlights_sorted (flights : List FlightOption) :
    (sortFlights flights).Pairwise fle :=
  List.sorted_insertionSort fle flights

theorem sortFlights_perm (flights : List FlightOption) :
    List.Perm (sortFlights flights) flights :=
  List.perm_insertionSort fle flights

theorem flightsByLeg_keep (ex : FlightOption) :
    ∀ (l : List FlightOption) (d : List ((String × String) × FlightOption)) (k : String × String),
      dlook2 k d = some ex → (∀ f ∈ l, legOf f = k → fle ex f) →
      dlook2 k (l.foldl flightsByLegStep d) = some ex
  | [], _, _, hd, _ => hd
  | f :: t, d, k, hd, hmin => by
      rw [List.foldl_cons]
      refine flightsByLeg_keep ex t _ k ?_
        (fun g hg hleg => hmin g (List.mem_cons_of_mem f hg) hleg)
      by_cases hk : legOf f = k
      · have hle : fle ex f := hmin f (by simp) hk
        have hstep : flightsByLegStep d f = d := by
          simp only [flightsByLegStep, hk, hd]
          exact if_neg (not_lt.mpr hle)
        rw [hstep]
        exact hd
      · have hstep : dlook2 k (flightsByLegStep d f) = dlook2 k d := by
          rcases hlf : dlook2 (legOf f) d with _ | ex₂
          · simp only [flightsByLegStep, hlf]
            exact dlook2_dinsert2_ne k (legOf f) f d hk
          · simp only [flightsByLegStep, hlf]
            split
            · exact dlook2_dinsert2_ne k (legOf f) f d hk
            · rfl
        rw [hstep]
        exact hd

theorem flightsByLeg_lookup :
    ∀ (l : List FlightOption) (d : List ((String × String) × FlightOption)) (k : String × String),
      l.Pairwise fle → dlook2 k d = none →
      dlook2 k (l.foldl flightsByLegStep d) = l.find? (fun f => legOf f = k)
  | [], _, _, _, hd => by simpa using hd
  | f :: t, d, k, hp, hd => by
      rw [List.foldl_cons]
      obtain ⟨hf, ht⟩ := List.pairwise_cons.mp hp
      by_cases hk : legOf f = k
      · have hstep : flightsByLegStep d f = dinsert2 k f d := by
          simp only [flightsByLegStep, hk, hd]
        have hlook : dlook2 k (dinsert2 k f d) = some f := dlook2_dinsert2_self k f d
        rw [hstep, flightsByLeg_keep f t _ k hlook (fun g hg _ => hf g hg)]
        simp [List.find?_cons, hk]
      · have hstep : dlook2 k (flightsByLegStep d f) = none := by
          have : dlook2 k (flightsByLegStep d f) = dlook2 k d := by
            rcases hlf : dlook2 (legOf f) d with _ | ex₂
            · simp only [flightsByLegStep, hlf]
              exact dlook2_dinsert2_ne k (legOf f) f d hk
            · simp only [flightsByLegStep, hlf]
              split
              · exact dlook2_dinsert2_ne k (legOf f) f d hk
              · rfl
          rw [this]
          exact hd
        rw [flightsByLeg_lookup t _ k ht hstep]
        simp [List.find?_cons, hk]

theorem find?_min_of_pairwise {R : FlightOption → FlightOption → Prop}
    (p : FlightOption → Bool) :
    ∀ l : List FlightOption, l.Pairwise R → ∀ f, l.find? p = some f →
      ∀ g ∈ l, p g = true → f = g ∨ R f g
  | [], _, _, hf, _, hg, _ => absurd hg (by simp)
  | a :: t, hp, f, hf, g, hg, hpg => by
      obtain ⟨ha, ht⟩ := List.pairwise_cons.mp hp
      rcases hpa : p a with _ | _
      · simp only [List.find?_cons, hpa] at hf
        rcases List.mem_cons.mp hg with rfl | hg₂
        · rw [hpa] at hpg
          exact absurd hpg (by simp)
        · exact find?_min_of_pairwise p t ht f hf g hg₂ hpg
      · simp only [List.find?_cons, hpa, Option.some.injEq] at hf
        subst hf
        rcases List.mem_cons.mp hg with rfl | hg₂
        · exact Or.inl rfl
        · exact Or.inr (ha g hg₂)

/-- C3: for multi-destination trips, the required leg sequence
origin→city₁→…→cityₙ→origin is derived from the realized itinerary route;
the discovered flights are stably ordered by the composite key (price, then
parsed departure time with unparsable times last via `datetime.max`, then raw
time text); the selected flights are exactly, in leg order, the first match
of each leg in that sorted list — the minimal-key matching flight (matching
normalized origin/destination labels) — and legs with no matching discovered
flight are absent, never substituted or synthesized. -/
theorem flight_selection_characterization (prefs : TravelPreferences)
    (flights : List FlightOption) (itinerary : Itinerary)
    (hmulti : 1 < prefs.destinations.length) :
    selectFlights prefs flights itinerary =
      (legOrder (labelCity prefs.origin_city) itinerary.destinations
        (labelCity prefs.origin_city)).filterMap
        (fun leg => (sortFlights flights).find? (fun f => legOf f = leg)) ∧
    List.Perm (sortFlights flights) flights ∧
    (sortFlights flights).Pairwise fle ∧
    (∀ leg ∈ legOrder (labelCity prefs.origin_city) itinerary.destinations
        (labelCity prefs.origin_city),
      ∀ f, (sortFlights flights).find? (fun g => legOf g = leg) = some f →
        legOf f = leg ∧ ∀ g ∈ flights, legOf g = leg → fle f g) := by
  refine ⟨?_, sortFlights_perm flights, sortFlights_sorted flights, ?_⟩
  · unfold selectFlights
    rw [if_pos hmulti]
    show (legOrder (labelCity prefs.origin_city) itinerary.destinations
        (labelCity prefs.origin_city)).filterMap
        (fun leg => dlook2 leg (flightsByLeg (sortFlights flights))) = _
    have hfun : (fun leg => dlook2 leg (flightsByLeg (sortFlights flights))) =
        (fun leg => (sortFlights flights).find? (fun f => legOf f = leg)) := by
      funext leg
      exact flightsByLeg_lookup (sortFlights flights) [] leg (sortFlights_sorted flights) rfl
    rw [hfun]
  · intro leg _ f hfind
    have hleg : legOf f = leg := by simpa using List.find?_some hfind
    refine ⟨hleg, ?_⟩
    intro g hg hlegg
    have hgs : g ∈ sortFlights flights := (sortFlights_perm flights).symm.subset hg
    have := find?_min_of_pairwise (fun g => decide (legOf g = leg)) (sortFlights flights)
      (sortFlights_sorted flights) f hfind g hgs (decide_eq_true hlegg)
    rcases this with rfl | hle
    · exact le_refl _
    · exact hle

def prefsC3 : TravelPreferences :=
  { origin_city := "Ooo", destinations := ["Aaa", "Bbb"], num_days := 4, num_locations := 2,
    total_budget := 1000, start_date := some 0 }

def flightsC3 : List FlightOption :=
  [{ origin := "Ooo", destination := "Aaa", depart_date := "2024-05-01", airline := "X",
     price := 100, departure_time := "09:00", arrival_time := "10:00", booking_link := "" },
   { origin := "Ooo", destination := "Aaa", depart_date := "2024-05-01", airline := "Y",
     price := 90, departure_time := "11:00", arrival_time := "12:00", booking_link := "" },
   { origin := "Bbb", destination := "Ooo", depart_date := "2024-05-04", airline := "Z",
     price := 80, departure_time := "13:00", arrival_time := "14:00", booking_link := "" }]

def itinC3 : Itinerary := { origin := "Ooo", destinations := ["Aaa", "Bbb"], days := [] }

set_option maxRecDepth 8000 in
theorem flight_selection_witness :
    1 < prefsC3.destinations.length ∧
    selectFlights prefsC3 flightsC3 itinC3 =
      (legOrder (labelCity prefsC3.origin_city) itinC3.destinations
        (labelCity prefsC3.origin_city)).filterMap
        (fun leg => (sortFlights flightsC3).find? (fun f => legOf f = leg)) :=
  ⟨by decide,
   (flight_selection_characterization prefsC3 flightsC3 itinC3 (by decide)).1⟩

end TravelAI
